import Mathlib

/-!
Verification of the Headphones acquisition search & dispatch engine.

Shallow embedding of `headphones/searcher.py`, `headphones/request.py`,
`headphones/sab.py`, `headphones/nzbget.py` and `headphones/soulseek.py`.
Python strings are Lean `String`s, byte strings are `List Nat` (each < 256),
Python floats are modelled exactly as rationals, `None`-or-value results are
`Option`s, and raised exceptions are explicit `Except` errors.
-/

set_option maxRecDepth 4096
set_option linter.unusedVariables false

namespace Headphones

/-! ## Python string primitives -/

/-- Python `str.lower()` (ASCII range, which covers all inputs used here). -/
def pyLower (s : String) : String := ⟨s.data.map Char.toLower⟩

/-- Python `str.upper()` (ASCII range). -/
def pyUpper (s : String) : String := ⟨s.data.map Char.toUpper⟩

/-- `needle` occurs as a contiguous sublist of `hay`. -/
def listContains (hay needle : List Char) : Bool :=
  match hay with
  | [] => needle.isEmpty
  | _ :: t => needle.isPrefixOf hay || listContains t needle

/-- Python `needle in hay` for strings (substring containment). -/
def pyIn (needle hay : String) : Bool := listContains hay.data needle.data

/-- Python `\w`: word character (letter, digit or underscore). -/
def isWordChar (c : Char) : Bool := c.isAlphanum || c == '_'

/-- `string.punctuation` from the Python standard library. -/
def stringPunctuation : String :=
  "!\"#$%&\x27()*+,-./:;<=>?@[\\]^_\x60\x7b|\x7d~"

/-- Python `str.split(sep)` on character lists (fuel-indexed worker; the fuel
starts at the list length, which always suffices since each step consumes at
least one character). -/
def splitOnChars (sep : List Char) : Nat → List Char → List Char →
    List (List Char)
  | _, [], acc => [acc.reverse]
  | 0, l, acc => [acc.reverse ++ l]
  | fuel + 1, c :: cs, acc =>
    if sep.isPrefixOf (c :: cs) then
      acc.reverse :: splitOnChars sep fuel (List.drop (sep.length - 1) cs) []
    else splitOnChars sep fuel cs (c :: acc)

/-- Python `str.split(sep)` for a non-empty separator. -/
def pySplit (s sep : String) : List String :=
  (splitOnChars sep.data s.data.length s.data []).map (fun l => (⟨l⟩ : String))

/-- Python `str.strip()` (whitespace at both ends). -/
def pyStrip (s : String) : String :=
  ⟨((s.data.dropWhile Char.isWhitespace).reverse.dropWhile
      Char.isWhitespace).reverse⟩

/-- Modelled from the spec: `helpers.split_string` (module `headphones.helpers`
is not part of the analysed sources).  Splits a configuration string on a
separator, trims whitespace and drops empty pieces. -/
def split_string (s : String) (sep : String := ",") : List String :=
  ((pySplit s sep).map pyStrip).filter (fun x => x ≠ "")

/-- Modelled from the spec: `helpers.has_token` (module `headphones.helpers`
is not part of the analysed sources).  Per spec §4.3 rule 6, a token is
accepted if it is "found as a whole-word match" in the title,
case-insensitively. -/
def has_token (title token : String) : Bool :=
  token ≠ "" &&
    (((pyLower title).data.splitOnP (fun c => !(isWordChar c))).map
        (fun l => (⟨l⟩ : String))).contains (pyLower token)

/-- Modelled from the spec: `helpers.replace_all` restricted to the
single-character replacement dictionaries used in `searcher.py`
(`{'!': 'i', '$': 's'}`). -/
def replaceChars (repl : List (Char × Char)) (s : String) : String :=
  ⟨s.data.map (fun c =>
    match repl.find? (fun p => p.1 == c) with
    | some p => p.2
    | none => c)⟩

/-! ## Data model -/

/-- `headphones.types.Result` (plus the extra fields carried by the Soulseek
`Result` namedtuple that `send_to_downloader` reads). -/
structure Result where
  title : String
  size : Nat
  url : String
  provider : String
  kind : String
  -- `matches` is a Lean keyword; this field embeds `Result.matches`
  matchesFlag : Bool
  user : String := ""
  files : List String := []
  folder : String := ""
deriving DecidableEq

/-- The columns of an `albums` row that the dispatcher reads. -/
structure Album where
  ArtistName : String := ""
  AlbumTitle : String := ""
  ReleaseDate : String := ""
  AlbumID : String := ""
  SearchTerm : String := ""
  -- `Type` is a Lean keyword; this field embeds the `Type` column
  AlbumType : String := ""
deriving DecidableEq

/-- The configuration values (`headphones.CONFIG.*`) consumed by the embedded
functions.  Python truthiness of numeric options is `≠ 0`, of string options
is `≠ ""`. -/
structure Config where
  PREFERRED_QUALITY : Nat := 0
  PREFERRED_BITRATE : Nat := 0
  PREFERRED_BITRATE_LOW_BUFFER : Nat := 0
  PREFERRED_BITRATE_HIGH_BUFFER : Nat := 0
  PREFERRED_BITRATE_ALLOW_LOSSLESS : Bool := false
  LOSSLESS_BITRATE_FROM : Nat := 0
  LOSSLESS_BITRATE_TO : Nat := 0
  PREFERRED_WORDS : String := ""
  IGNORED_WORDS : String := ""
  REQUIRED_WORDS : String := ""
  IGNORE_CLEAN_RELEASES : Bool := false
  PREFER_TORRENTS : Nat := 0
  NZB_DOWNLOADER : Nat := 0
  TORRENT_DOWNLOADER : Nat := 0
  MAGNET_LINKS : Nat := 0
  DELUGE_LABEL : Bool := false
  UTORRENT_LABEL : Bool := false
  -- provider/downloader availability flags (truthiness of the host/apikey
  -- configuration strings combined in do_sorted_search)
  HEADPHONES_INDEXER : Bool := false
  NEWZNAB : Bool := false
  NZBSORG : Bool := false
  OMGWTFNZBS : Bool := false
  SAB_HOST : Bool := false
  BLACKHOLE_DIR : Bool := false
  NZBGET_HOST : Bool := false
  TORZNAB : Bool := false
  PIRATEBAY : Bool := false
  RUTRACKER : Bool := false
  ORPHEUS : Bool := false
  REDACTED : Bool := false
  BANDCAMP : Bool := false
  BANDCAMP_DIR : Bool := false
  SOULSEEK : Bool := false
  SOULSEEK_API_URL : Bool := false
  SOULSEEK_API_KEY : Bool := false
  SOULSEEK_DOWNLOAD_DIR : Bool := false
  SOULSEEK_INCOMPLETE_DOWNLOAD_DIR : Bool := false
  -- seed-ratio configuration strings (None or a decimal string)
  rutracker_ratio : Option String := none
  orpheus_ratio : Option String := none
  redacted_ratio : Option String := none
  piratebay_ratio : Option String := none
  torznab_ratio : Option String := none
  TORZNAB_HOST : String := ""
  -- get_extra_torznabs(): (host, seed-ratio) pairs
  extraTorznabs : List (String × Option String) := []
deriving DecidableEq

/-- Truthiness of a Python optional float (`None` and `0.0` are falsy). -/
def qTruthy : Option ℚ → Bool
  | none => false
  | some q => q != 0

/-! ## Stable sorting (Python `sorted`) -/

/-- Stable insertion of `a` into an already sorted list: `a` is placed before
the first element `b` with `le a b` (so on ties the freshly inserted,
originally earlier element comes first, as Python's stable sort does). -/
def insertStable (le : α → α → Bool) (a : α) : List α → List α
  | [] => [a]
  | b :: bs => if le a b then a :: b :: bs else b :: insertStable le a bs

/-- Stable sort w.r.t. the boolean comparison `le`; for a total preorder this
computes exactly the output of Python's stable `sorted`. -/
def pySorted (le : α → α → Bool) : List α → List α
  | [] => []
  | a :: l => insertStable le a (pySorted le l)

theorem insertStable_perm (le : α → α → Bool) (a : α) (l : List α) :
    (insertStable le a l).Perm (a :: l) := by
  induction l with
  | nil => simp [insertStable]
  | cons b bs ih =>
    simp only [insertStable]
    by_cases h : le a b
    · simp [h]
    · simp only [h, if_neg]
      exact ((ih.cons b).trans (List.Perm.swap a b bs)).symm.symm

theorem pySorted_perm (le : α → α → Bool) (l : List α) :
    (pySorted le l).Perm l := by
  induction l with
  | nil => simp [pySorted]
  | cons a l ih =>
    exact (insertStable_perm le a (pySorted le l)).trans (ih.cons a)

theorem mem_insertStable (le : α → α → Bool) (a x : α) (l : List α) :
    x ∈ insertStable le a l ↔ x = a ∨ x ∈ l := by
  have := (insertStable_perm le a l).mem_iff (a := x)
  simpa using this

theorem pairwise_insertStable (le : α → α → Bool)
    (htot : ∀ x y, le x y = true ∨ le y x = true)
    (htrans : ∀ x y z, le x y = true → le y z = true → le x z = true)
    (a : α) (l : List α) :
    l.Pairwise (fun x y => le x y = true) →
      (insertStable le a l).Pairwise (fun x y => le x y = true) := by
  induction l with
  | nil => intro _; simp [insertStable]
  | cons b bs ih =>
    intro hl
    rcases List.pairwise_cons.mp hl with ⟨hb, hbs⟩
    simp only [insertStable]
    by_cases h : le a b
    · simp only [h, if_pos]
      refine List.Pairwise.cons ?_ (List.pairwise_cons.mpr ⟨hb, hbs⟩)
      intro y hy
      rcases List.mem_cons.mp hy with rfl | hy
      · exact h
      · exact htrans a b y h (hb _ hy)
    · simp only [h, if_neg, Bool.false_eq_true, not_false_eq_true]
      refine List.Pairwise.cons ?_ (ih hbs)
      intro y hy
      rcases (mem_insertStable le a y bs).mp hy with hEq | hy
      · rw [hEq]
        rcases htot a b with h' | h'
        · exact absurd h' (by simpa using h)
        · exact h'
      · exact hb _ hy

theorem pairwise_pySorted (le : α → α → Bool)
    (htot : ∀ x y, le x y = true ∨ le y x = true)
    (htrans : ∀ x y z, le x y = true → le y z = true → le x z = true)
    (l : List α) :
    (pySorted le l).Pairwise (fun x y => le x y = true) := by
  induction l with
  | nil => simp [pySorted]
  | cons a l ih => exact pairwise_insertStable le htot htrans a _ ih

/-! ## Ranking engine (`sort_search_results`, lines 492–580) -/

/-- Python tuple comparison key `(matches, priority, size)`: descending
comparison used by `sorted(..., reverse=True)`.  `descGe a b` holds when `a`
may come before `b` in the descending output (`a ≥ b` in tuple order). -/
def descGe (a b : Bool × Nat × Nat) : Bool :=
  decide (b.1.toNat < a.1.toNat ∨
    (a.1 = b.1 ∧ (b.2.1 < a.2.1 ∨ (a.2.1 = b.2.1 ∧ b.2.2 ≤ a.2.2))))

theorem descGe_total : ∀ x y, descGe x y = true ∨ descGe y x = true := by
  rintro ⟨m1, p1, s1⟩ ⟨m2, p2, s2⟩
  cases m1 <;> cases m2 <;> simp [descGe] <;> omega

theorem descGe_trans :
    ∀ x y z, descGe x y = true → descGe y z = true → descGe x z = true := by
  rintro ⟨m1, p1, s1⟩ ⟨m2, p2, s2⟩ ⟨m3, p3, s3⟩
  cases m1 <;> cases m2 <;> cases m3 <;> simp [descGe] <;> omega

/-- The preferred-word priority of a result (lines 509–516): each configured
word that equals the whole title or the whole provider (case-insensitively)
contributes `len(preferred_words) - preferred_words.index(word)`. -/
def result_priority (preferredWords : List String) (r : Result) : Nat :=
  (preferredWords.map (fun w =>
    if pyLower w == pyLower r.title || pyLower w == pyLower r.provider then
      preferredWords.length - List.indexOf w preferredWords
    else 0)).sum

/-- `sort_by_priority_then_size` (lines 492–499): stable sort of
`(result, priority)` pairs by the key `(matches, priority, size)` with
`reverse=True`, then projection to the results. -/
def sort_by_priority_then_size (rs : List (Result × Nat)) : List Result :=
  (pySorted (fun x y =>
      descGe (x.1.matchesFlag, x.2, x.1.size) (y.1.matchesFlag, y.2, y.1.size)) rs).map
    Prod.fst

/-- Ascending key comparison of the target-bitrate branch (line 546):
`key=lambda x: (-matches, -priority, delta)` sorted ascending. -/
def bitrateLe (a b : Bool × Nat × ℚ) : Bool :=
  decide (b.1.toNat < a.1.toNat ∨
    (a.1 = b.1 ∧ (b.2.1 < a.2.1 ∨ (a.2.1 = b.2.1 ∧ a.2.2 ≤ b.2.2))))

/-- `sort_search_results` (lines 502–580).  `albumlength` is the possibly
`NULL` track-duration sum; the bitrate branch's float arithmetic is modelled
exactly over ℚ.  Returns `none` where the Python function returns `None`. -/
def sort_search_results (cfg : Config) (resultlist : List Result)
    (new : Bool) (albumlength : Option ℚ) : Option (List Result) :=
  if new && resultlist.isEmpty then none
  else
    let preferredWords := split_string cfg.PREFERRED_WORDS
    let results_with_priority :=
      resultlist.map (fun r => (r, result_priority preferredWords r))
    if cfg.PREFERRED_QUALITY == 2 && cfg.PREFERRED_BITRATE != 0 then
      match albumlength with
      | none =>
        -- `albumlength / 1000` raises TypeError on None, caught by the
        -- catch-all handler (lines 565–571): default to highest quality
        some (sort_by_priority_then_size results_with_priority)
      | some len =>
        let targetsize : ℚ := len / 1000 * cfg.PREFERRED_BITRATE * 128
        if targetsize == 0 then
          some (sort_by_priority_then_size results_with_priority)
        else
          let lossless_results :=
            results_with_priority.filter (fun x => pyIn "flac" (pyLower x.1.title))
          let lossy_results_with_delta :=
            (results_with_priority.filter
                (fun x => !(pyIn "flac" (pyLower x.1.title)))).map
              (fun x => (x.1, x.2, |targetsize - (x.1.size : ℚ)|))
          if !lossy_results_with_delta.isEmpty then
            some ((pySorted (fun x y =>
                bitrateLe (x.1.matchesFlag, x.2.1, x.2.2)
                  (y.1.matchesFlag, y.2.1, y.2.2)) lossy_results_with_delta).map
              Prod.fst)
          else if !lossless_results.isEmpty &&
              cfg.PREFERRED_BITRATE_ALLOW_LOSSLESS then
            some (sort_by_priority_then_size lossless_results)
          else none
    else
      some (sort_by_priority_then_size results_with_priority)

/-! ## Quality & dedup filter (`more_filtering`, lines 427–489) -/

/-- The size-window computation of `more_filtering` (lines 428–454): returns
`(low_size_limit, high_size_limit, allow_lossless)`.  Python float division is
modelled exactly over ℚ. -/
def size_limits (cfg : Config) (albumlength : Option ℚ) :
    Option ℚ × Option ℚ × Bool :=
  if cfg.PREFERRED_QUALITY == 3 && qTruthy albumlength &&
      (cfg.LOSSLESS_BITRATE_FROM != 0 || cfg.LOSSLESS_BITRATE_TO != 0) then
    match albumlength with
    | some len =>
      ((if cfg.LOSSLESS_BITRATE_FROM != 0 then
          some (len / 1000 * cfg.LOSSLESS_BITRATE_FROM * 128) else none),
       (if cfg.LOSSLESS_BITRATE_TO != 0 then
          some (len / 1000 * cfg.LOSSLESS_BITRATE_TO * 128) else none),
       false)
    | none => (none, none, false)   -- unreachable: albumlength was truthy
  else if cfg.PREFERRED_QUALITY == 2 && cfg.PREFERRED_BITRATE != 0 then
    match albumlength with
    | some len =>
      if len != 0 then
        let targetsize : ℚ := len / 1000 * cfg.PREFERRED_BITRATE * 128
        ((if cfg.PREFERRED_BITRATE_LOW_BUFFER != 0 then
            some (targetsize -
              targetsize * cfg.PREFERRED_BITRATE_LOW_BUFFER / 100) else none),
         (if cfg.PREFERRED_BITRATE_HIGH_BUFFER != 0 then
            some (targetsize +
              targetsize * cfg.PREFERRED_BITRATE_HIGH_BUFFER / 100) else none),
         (cfg.PREFERRED_BITRATE_HIGH_BUFFER != 0 &&
            cfg.PREFERRED_BITRATE_ALLOW_LOSSLESS))
      else (none, none, false)
    | none => (none, none, false)
  else (none, none, false)

/-- `more_filtering` (lines 427–489).  `snatchedUrls` stands for the URL
column of the `snatched` table; `new` is the `isAutomaticSearch` flag.  The
loop with `continue` is expressed as a filter with the same keep-condition. -/
def more_filtering (cfg : Config) (results : List Result)
    (albumlength : Option ℚ) (new : Bool) (snatchedUrls : List String) :
    List Result :=
  let lims := size_limits cfg albumlength
  results.filter (fun result =>
    if qTruthy lims.1 && decide ((result.size : ℚ) < lims.1.getD 0) then
      false   -- too small (line 460)
    else if qTruthy lims.2.1 && decide ((result.size : ℚ) > lims.2.1.getD 0) &&
        !(lims.2.2 && pyIn "flac" (pyLower result.title)) then
      false   -- too large and not an allowed lossless result (lines 467–474)
    else if new && snatchedUrls.contains result.url then
      false   -- already snatched (lines 476–485)
    else true)

/-! ## Verification filter (`verifyresult`, lines 1273–1356) -/

/-- `re.sub(r'[\.\-\/\_]', r' ', title)` (line 1274). -/
def subTitleSeparators (title : String) : String :=
  ⟨title.data.map (fun c =>
    if c == '.' || c == '-' || c == '/' || c == '_' then ' ' else c)⟩

/-- `re.split(r'\W', term, re.IGNORECASE | re.UNICODE)` (line 1337).  The
third positional argument of `re.split` is `maxsplit`, so the flags value
`2 ||| 32 = 34` acts as a split limit: at most 34 splits are performed and the
remainder of the string, separators included, is the final piece. -/
def termTokensGo : List Char → Nat → List Char → List (List Char)
  | [], _, acc => [acc.reverse]
  | c :: cs, fuel, acc =>
    if !(isWordChar c) && fuel != 0 then
      acc.reverse :: termTokensGo cs (fuel - 1) []
    else termTokensGo cs fuel (c :: acc)

/-- The token list of the tokenization check; see `termTokensGo`. -/
def termTokens (term : String) : List String :=
  (termTokensGo term.data 34 []).map (fun l => (⟨l⟩ : String))

/-- `verifyresult` (lines 1273–1356).  `artistterm` is accepted but unused by
the live code (the artist checks are commented out in the source). -/
def verifyresult (cfg : Config) (title0 artistterm term : String)
    (lossless : Bool) : Bool :=
  let title := subTitleSeparators title0
  -- remix filter (line 1291)
  if !(pyIn "remix" (pyLower term)) && pyIn "remix" (pyLower title) then false
  -- FLAC filter (lines 1297–1303), applied only in quality mode 0
  else if cfg.PREFERRED_QUALITY == 0 && pyIn "flac" (pyLower title) &&
      !lossless then false
  -- ignored words (lines 1305–1310)
  else if cfg.IGNORED_WORDS != "" &&
      (split_string cfg.IGNORED_WORDS).any
        (fun w => pyIn (pyLower w) (pyLower title)) then false
  -- required words (lines 1312–1327)
  else if cfg.REQUIRED_WORDS != "" &&
      !((split_string cfg.REQUIRED_WORDS).all (fun each_word =>
          if pyIn " OR " each_word then
            (split_string each_word "OR").any
              (fun w => pyIn (pyLower w) (pyLower title))
          else pyIn (pyLower each_word) (pyLower title))) then false
  -- clean/edited/censored markers (lines 1329–1335)
  else if cfg.IGNORE_CLEAN_RELEASES &&
      ((["clean", "edited", "censored"] : List String).any (fun w =>
          pyIn (pyLower w) (pyLower title) &&
            !(pyIn (pyLower w) (pyLower term)))) then false
  -- tokenization check (lines 1337–1354)
  else
    (termTokens term).all (fun token =>
      if token == "" then true
      else if token == "Various" || token == "Artists" || token == "VA" then
        true
      else
        has_token title token ||
        has_token title
          (⟨token.data.filter (fun c => !(stringPunctuation.data.contains c))⟩) ||
        has_token title (replaceChars [('!', 'i'), ('$', 's')] token))

/-! ## Claim C4: dedup in the quality & dedup filter -/

/-- C4: when the search is automatic (`new` is true), any result whose URL
exactly matches a URL already in the snatched history is excluded from the
output of `more_filtering`; when the search is manual (`new` is false) the
snatched history is ignored entirely, so previously snatched URLs are kept
(subject only to the size checks). -/
theorem claim_C4 :
    (∀ (cfg : Config) (results : List Result) (albumlength : Option ℚ)
        (snatched : List String) (r : Result),
        snatched.contains r.url = true →
          r ∉ more_filtering cfg results albumlength true snatched) ∧
    (∀ (cfg : Config) (results : List Result) (albumlength : Option ℚ)
        (snatched snatched' : List String),
        more_filtering cfg results albumlength false snatched =
          more_filtering cfg results albumlength false snatched') := by
  constructor
  · intro cfg results albumlength snatched r hsn hmem
    simp only [more_filtering] at hmem
    have hp := (List.mem_filter.mp hmem).2
    simp only [Bool.true_and, hsn] at hp
    rcases Decidable.em
        (qTruthy (size_limits cfg albumlength).1 &&
          decide ((r.size : ℚ) < (size_limits cfg albumlength).1.getD 0)
            = true) with h1 | h1 <;>
      rcases Decidable.em
        ((qTruthy (size_limits cfg albumlength).2.1 &&
            decide ((r.size : ℚ) > (size_limits cfg albumlength).2.1.getD 0) &&
          !((size_limits cfg albumlength).2.2 &&
              pyIn "flac" (pyLower r.title))) = true) with h2 | h2 <;>
      simp [h1, h2] at hp
  · intro cfg results albumlength snatched snatched'
    simp [more_filtering]

/-- Example result for the C4 witness. -/
def exR4 : Result :=
  { title := "T", size := 10, url := "http://u1", provider := "p",
    kind := "nzb", matchesFlag := true }

/-- Witness for C4 at a concrete input: a result whose URL is in the snatched
history is dropped from an automatic filter run, and a manual filter run
ignores the snatched history entirely. -/
theorem claim_C4_witness :
    (["http://u1"].contains exR4.url = true) ∧
    exR4 ∉ more_filtering {} [exR4] none true ["http://u1"] ∧
    more_filtering {} [exR4] none false ["http://u1"] =
      more_filtering {} [exR4] none false [] :=
  ⟨by decide,
   claim_C4.1 {} [exR4] none ["http://u1"] exR4 (by decide),
   claim_C4.2 {} [exR4] none ["http://u1"] []⟩

/-! ## Claim C5: ranking order in non-target-bitrate modes -/

/-- The ranking key of a result under a configuration. -/
def rankKey (cfg : Config) (r : Result) : Bool × Nat × Nat :=
  (r.matchesFlag, result_priority (split_string cfg.PREFERRED_WORDS) r, r.size)

/-- Example configuration of testable property 3: one preferred word equal to
the provider name, so both example results have priority 1. -/
def exCfgC5 : Config := { PREFERRED_WORDS := "prov" }

/-- Example result A of testable property 3 (size 300). -/
def exA : Result :=
  { title := "A", size := 300, url := "uA", provider := "prov",
    kind := "nzb", matchesFlag := true }

/-- Example result B of testable property 3 (size 500). -/
def exB : Result :=
  { title := "B", size := 500, url := "uB", provider := "prov",
    kind := "nzb", matchesFlag := true }

/-- C5: in every non-target-bitrate quality mode, `sort_search_results`
returns a permutation of the input ordered by (match flag descending,
preferred-word priority descending, size descending); in particular the
concrete example A(size 300) / B(size 500) with equal priority and match flag
ranks B before A. -/
theorem claim_C5 :
    (∀ (cfg : Config) (resultlist : List Result) (new : Bool)
        (albumlength : Option ℚ),
        cfg.PREFERRED_QUALITY ≠ 2 →
        (new = false ∨ resultlist ≠ []) →
        ∃ out, sort_search_results cfg resultlist new albumlength = some out ∧
          out.Perm resultlist ∧
          out.Pairwise (fun a b => descGe (rankKey cfg a) (rankKey cfg b) = true)) ∧
    sort_search_results exCfgC5 [exA, exB] true (some 1000) = some [exB, exA] := by
  constructor
  · intro cfg resultlist new albumlength hq hne
    have hq2 : (cfg.PREFERRED_QUALITY == 2) = false := by
      simpa using hq
    have hcond : (new && resultlist.isEmpty) = false := by
      rcases hne with h | h
      · simp [h]
      · simp [List.isEmpty_iff, h]
    simp only [sort_search_results, hcond, hq2, Bool.false_and,
      Bool.if_false_left, Bool.not_true, if_false, Bool.false_eq_true]
    refine ⟨_, rfl, ?_, ?_⟩
    · -- permutation
      have hperm := pySorted_perm (fun x y =>
        descGe (x.1.matchesFlag, x.2, x.1.size) (y.1.matchesFlag, y.2, y.1.size))
        (resultlist.map (fun r =>
          (r, result_priority (split_string cfg.PREFERRED_WORDS) r)))
      have h := hperm.map Prod.fst
      have hmapid : (resultlist.map (fun r =>
          (r, result_priority (split_string cfg.PREFERRED_WORDS) r))).map
            Prod.fst = resultlist := by
        rw [List.map_map]
        exact List.map_id resultlist
      rw [hmapid] at h
      simpa [sort_by_priority_then_size] using h
    · -- pairwise order
      have hpw := pairwise_pySorted (fun x y =>
        descGe (x.1.matchesFlag, x.2, x.1.size) (y.1.matchesFlag, y.2, y.1.size))
        (fun x y => descGe_total _ _) (fun x y z => descGe_trans _ _ _)
        (resultlist.map (fun r =>
          (r, result_priority (split_string cfg.PREFERRED_WORDS) r)))
      have hmemprop : ∀ x ∈ pySorted (fun x y =>
          descGe (x.1.matchesFlag, x.2, x.1.size) (y.1.matchesFlag, y.2, y.1.size))
          (resultlist.map (fun r =>
            (r, result_priority (split_string cfg.PREFERRED_WORDS) r))),
          x.2 = result_priority (split_string cfg.PREFERRED_WORDS) x.1 := by
        intro x hx
        have hx' := (pySorted_perm _ _).mem_iff.mp hx
        rcases List.mem_map.mp hx' with ⟨r, _, rfl⟩
        rfl
      simp only [sort_by_priority_then_size, List.pairwise_map]
      refine hpw.imp_of_mem ?_
      intro a b ha hb hab
      have ha2 := hmemprop a ha
      have hb2 := hmemprop b hb
      simpa [rankKey, ha2, hb2] using hab
  · decide

/-- Witness for C5: the universal part applied at the concrete example. -/
theorem claim_C5_witness :
    ∃ out, sort_search_results exCfgC5 [exA, exB] false none = some out ∧
      out.Perm [exA, exB] ∧
      out.Pairwise (fun a b =>
        descGe (rankKey exCfgC5 a) (rankKey exCfgC5 b) = true) :=
  claim_C5.1 exCfgC5 [exA, exB] false none (by decide) (Or.inl rfl)

/-! ## Claim C7: the lossless/FLAC rejection rule -/

/-- Example configuration refuting C7: target-bitrate mode (quality 2), which
does not request lossless. -/
def exCfgC7 : Config := { PREFERRED_QUALITY := 2, PREFERRED_BITRATE := 320 }

/-- C7 counterexample: in quality mode 2 (target bitrate — a mode that does
not request lossless) with `losslessOnly = false`, a FLAC-marked title is NOT
rejected by `verifyresult`, contradicting the claim that every
non-lossless-requesting mode rejects lossless titles. -/
theorem claim_C7_counterexample :
    ¬ (verifyresult exCfgC7 "Artist Album FLAC" "Artist" "Artist Album" false
        = false) := by decide

/-- C7 (amended): the verification filter rejects a FLAC-marked title exactly
under quality mode 0 (highest-available lossy); whenever the configured
quality mode is 0, `losslessOnly` is false and the (separator-normalized)
title contains "flac" case-insensitively, `verifyresult` returns false. -/
theorem claim_C7 (cfg : Config) (title artistterm term : String)
    (h0 : cfg.PREFERRED_QUALITY = 0)
    (hf : pyIn "flac" (pyLower (subTitleSeparators title)) = true) :
    verifyresult cfg title artistterm term false = false := by
  unfold verifyresult
  by_cases c1 : (!(pyIn "remix" (pyLower term)) &&
      pyIn "remix" (pyLower (subTitleSeparators title))) = true
  · simp [c1]
  · simp [c1, h0, hf]

/-- Witness for C7 (amended) at a concrete input. -/
theorem claim_C7_witness :
    verifyresult { PREFERRED_QUALITY := 0 } "Great Album [FLAC]" "Artist"
      "Great Album" false = false :=
  claim_C7 { PREFERRED_QUALITY := 0 } "Great Album [FLAC]" "Artist"
    "Great Album" rfl (by decide)

/-! ## Fallback orchestrator (`do_sorted_search`, lines 306–424) -/

/-- Python `s.startswith(pfx)`. -/
def pyStartsWith (s pfx : String) : Bool := pfx.data.isPrefixOf s.data

/-- The provider tiers of the fallback orchestrator. -/
inductive Tier
  | nzb
  | torrent
  | bandcamp
  | soulseek
deriving DecidableEq

/-- Per-tier search outcomes supplied by the environment.  The usenet,
torrent and bandcamp searches return lists; `searchSoulseek` can also return
`None` (its exception handler), hence the `Option`. -/
structure TierResults where
  nzbResults : List Result := []
  torrentResults : List Result := []
  bandcampResults : List Result := []
  soulseekResults : Option (List Result) := none
deriving DecidableEq

/-- Truthiness of the running `results` value (`None` and `[]` are falsy). -/
def pyListTruthy : Option (List Result) → Bool
  | none => false
  | some l => !l.isEmpty

/-- `NZB_PROVIDERS` (lines 309–312). -/
def NZB_PROVIDERS (cfg : Config) : Bool :=
  cfg.HEADPHONES_INDEXER || cfg.NEWZNAB || cfg.NZBSORG || cfg.OMGWTFNZBS

/-- `NZB_DOWNLOADERS` (lines 314–316). -/
def NZB_DOWNLOADERS (cfg : Config) : Bool :=
  cfg.SAB_HOST || cfg.BLACKHOLE_DIR || cfg.NZBGET_HOST

/-- `TORRENT_PROVIDERS` (lines 318–322). -/
def TORRENT_PROVIDERS (cfg : Config) : Bool :=
  cfg.TORZNAB || cfg.PIRATEBAY || cfg.RUTRACKER || cfg.ORPHEUS || cfg.REDACTED

/-- `BANDCAMP` availability (lines 324–325). -/
def BANDCAMP_AVAILABLE (cfg : Config) : Bool :=
  cfg.BANDCAMP && cfg.BANDCAMP_DIR

/-- `SOULSEEK` availability (lines 327–331). -/
def SOULSEEK_AVAILABLE (cfg : Config) : Bool :=
  cfg.SOULSEEK && cfg.SOULSEEK_API_URL && cfg.SOULSEEK_API_KEY &&
    cfg.SOULSEEK_DOWNLOAD_DIR && cfg.SOULSEEK_INCOMPLETE_DOWNLOAD_DIR

/-- The tier-selection part of `do_sorted_search` (lines 339–403): returns
the ordered trace of tiers actually queried together with the final
`results` value.  In the final `else` branch (merge-all / "No Preference")
the Soulseek search is commented out in the source (lines 398–401), so
`soulseek_results` stays `[]` and that tier is never queried. -/
def do_sorted_search_select (cfg : Config) (env : TierResults)
    (choose_specific_download : Bool) : List Tier × Option (List Result) :=
  if cfg.PREFER_TORRENTS == 0 && !choose_specific_download then
    let s1 : List Tier × Option (List Result) :=
      if NZB_PROVIDERS cfg && NZB_DOWNLOADERS cfg then
        ([Tier.nzb], some env.nzbResults) else ([], some [])
    let s2 :=
      if !(pyListTruthy s1.2) && TORRENT_PROVIDERS cfg then
        (s1.1 ++ [Tier.torrent], some env.torrentResults) else s1
    let s3 :=
      if !(pyListTruthy s2.2) && BANDCAMP_AVAILABLE cfg then
        (s2.1 ++ [Tier.bandcamp], some env.bandcampResults) else s2
    if !(pyListTruthy s3.2) && SOULSEEK_AVAILABLE cfg then
      (s3.1 ++ [Tier.soulseek], env.soulseekResults) else s3
  else if cfg.PREFER_TORRENTS == 1 && !choose_specific_download then
    let s1 : List Tier × Option (List Result) :=
      if TORRENT_PROVIDERS cfg then
        ([Tier.torrent], some env.torrentResults) else ([], some [])
    let s2 :=
      if !(pyListTruthy s1.2) && NZB_PROVIDERS cfg && NZB_DOWNLOADERS cfg then
        (s1.1 ++ [Tier.nzb], some env.nzbResults) else s1
    let s3 :=
      if !(pyListTruthy s2.2) && BANDCAMP_AVAILABLE cfg then
        (s2.1 ++ [Tier.bandcamp], some env.bandcampResults) else s2
    if !(pyListTruthy s3.2) && SOULSEEK_AVAILABLE cfg then
      (s3.1 ++ [Tier.soulseek], env.soulseekResults) else s3
  else if cfg.PREFER_TORRENTS == 2 && !choose_specific_download then
    let s1 : List Tier × Option (List Result) :=
      ([Tier.soulseek], env.soulseekResults)
    let s2 :=
      if !(pyListTruthy s1.2) && NZB_PROVIDERS cfg && NZB_DOWNLOADERS cfg then
        (s1.1 ++ [Tier.nzb], some env.nzbResults) else s1
    let s3 :=
      if !(pyListTruthy s2.2) && TORRENT_PROVIDERS cfg then
        (s2.1 ++ [Tier.torrent], some env.torrentResults) else s2
    if !(pyListTruthy s3.2) && BANDCAMP_AVAILABLE cfg then
      (s3.1 ++ [Tier.bandcamp], some env.bandcampResults) else s3
  else
    -- "No Preference" (merge-all) branch, lines 379–403
    let nzb_results :=
      if NZB_PROVIDERS cfg && NZB_DOWNLOADERS cfg then env.nzbResults else []
    let torrent_results :=
      if TORRENT_PROVIDERS cfg then env.torrentResults else []
    let bandcamp_results :=
      if BANDCAMP_AVAILABLE cfg then env.bandcampResults else []
    let soulseek_results : List Result := []   -- search commented out (l. 398)
    ((if NZB_PROVIDERS cfg && NZB_DOWNLOADERS cfg then [Tier.nzb] else []) ++
       (if TORRENT_PROVIDERS cfg then [Tier.torrent] else []) ++
       (if BANDCAMP_AVAILABLE cfg then [Tier.bandcamp] else []),
     some (nzb_results ++ torrent_results ++ bandcamp_results ++
       soulseek_results))

/-! ## Claim C6: merge-all tier fan-out -/

/-- Configuration for the C6 counterexample: merge-all preference with every
tier configured and available. -/
def cfgC6 : Config :=
  { PREFER_TORRENTS := 3, HEADPHONES_INDEXER := true, SAB_HOST := true,
    TORZNAB := true, BANDCAMP := true, BANDCAMP_DIR := true,
    SOULSEEK := true, SOULSEEK_API_URL := true, SOULSEEK_API_KEY := true,
    SOULSEEK_DOWNLOAD_DIR := true, SOULSEEK_INCOMPLETE_DOWNLOAD_DIR := true }

/-- A Soulseek result for the C6 counterexample environment. -/
def exRS : Result :=
  { title := "S", size := 1, url := "uS", provider := "soulseek",
    kind := "soulseek", matchesFlag := true }

/-- Environment for the C6 counterexample: the Soulseek tier would return a
result. -/
def envC6 : TierResults := { soulseekResults := some [exRS] }

/-- C6 counterexample: in merge-all mode with the peer-file-sharing tier
configured and available, that tier is NOT queried (its search call is
commented out in the source), refuting "no available tier is skipped". -/
theorem claim_C6_counterexample :
    SOULSEEK_AVAILABLE cfgC6 = true ∧
    Tier.soulseek ∉ (do_sorted_search_select cfgC6 envC6 false).1 := by
  decide

/-- C6 (amended): in merge-all mode the orchestrator queries the usenet,
torrent and bandcamp tiers unconditionally — each is queried if and only if
it is configured/available, independently of any other tier's outcome — and
concatenates their results in that order; the peer-file-sharing tier is never
queried in this mode. -/
theorem claim_C6 (cfg : Config) (env : TierResults)
    (h0 : cfg.PREFER_TORRENTS ≠ 0) (h1 : cfg.PREFER_TORRENTS ≠ 1)
    (h2 : cfg.PREFER_TORRENTS ≠ 2) :
    (do_sorted_search_select cfg env false).1 =
      (if NZB_PROVIDERS cfg && NZB_DOWNLOADERS cfg then [Tier.nzb] else []) ++
        (if TORRENT_PROVIDERS cfg then [Tier.torrent] else []) ++
        (if BANDCAMP_AVAILABLE cfg then [Tier.bandcamp] else []) ∧
    (do_sorted_search_select cfg env false).2 =
      some ((if NZB_PROVIDERS cfg && NZB_DOWNLOADERS cfg then env.nzbResults
          else []) ++
        (if TORRENT_PROVIDERS cfg then env.torrentResults else []) ++
        (if BANDCAMP_AVAILABLE cfg then env.bandcampResults else []) ++ []) ∧
    Tier.soulseek ∉ (do_sorted_search_select cfg env false).1 := by
  have e0 : (cfg.PREFER_TORRENTS == 0) = false := by simpa using h0
  have e1 : (cfg.PREFER_TORRENTS == 1) = false := by simpa using h1
  have e2 : (cfg.PREFER_TORRENTS == 2) = false := by simpa using h2
  have hsel : do_sorted_search_select cfg env false =
      ((if NZB_PROVIDERS cfg && NZB_DOWNLOADERS cfg then [Tier.nzb]
          else []) ++
        (if TORRENT_PROVIDERS cfg then [Tier.torrent] else []) ++
        (if BANDCAMP_AVAILABLE cfg then [Tier.bandcamp] else []),
       some ((if NZB_PROVIDERS cfg && NZB_DOWNLOADERS cfg then env.nzbResults
            else []) ++
          (if TORRENT_PROVIDERS cfg then env.torrentResults else []) ++
          (if BANDCAMP_AVAILABLE cfg then env.bandcampResults else []) ++
          [])) := by
    simp only [do_sorted_search_select, e0, e1, e2, Bool.not_false,
      Bool.and_true, Bool.false_eq_true, if_false]
  refine ⟨by rw [hsel], by rw [hsel], ?_⟩
  intro hmem
  rw [hsel] at hmem
  simp only [List.mem_append] at hmem
  rcases hmem with (h | h) | h <;> split at h <;> simp_all

/-- Witness for C6 (amended) at a concrete merge-all configuration. -/
theorem claim_C6_witness :
    (do_sorted_search_select cfgC6 envC6 false).1 =
      (if NZB_PROVIDERS cfgC6 && NZB_DOWNLOADERS cfgC6 then [Tier.nzb]
        else []) ++
        (if TORRENT_PROVIDERS cfgC6 then [Tier.torrent] else []) ++
        (if BANDCAMP_AVAILABLE cfgC6 then [Tier.bandcamp] else []) ∧
    (do_sorted_search_select cfgC6 envC6 false).2 =
      some ((if NZB_PROVIDERS cfgC6 && NZB_DOWNLOADERS cfgC6 then
          envC6.nzbResults else []) ++
        (if TORRENT_PROVIDERS cfgC6 then envC6.torrentResults else []) ++
        (if BANDCAMP_AVAILABLE cfgC6 then envC6.bandcampResults else []) ++
          []) ∧
    Tier.soulseek ∉ (do_sorted_search_select cfgC6 envC6 false).1 :=
  claim_C6 cfgC6 envC6 (by decide) (by decide) (by decide)

/-! ## Payload preprocessing (`preprocess`, lines 1921–1999) -/

/-- A Python payload value as produced by `preprocess` and consumed by
`send_to_downloader`: the literal `True`, `None`, a byte string or a text
string. -/
inductive PayloadVal
  | pyTrue
  | pyNone
  | bytesVal (bs : List Nat)
  | strVal (s : String)
deriving DecidableEq

/-- Python truthiness of a payload value. -/
def payloadTruthy : PayloadVal → Bool
  | .pyTrue => true
  | .pyNone => false
  | .bytesVal bs => !bs.isEmpty
  | .strVal s => s != ""

/-- A (truthy) Torznab redirect response: the `Location` header and the raw
body. -/
structure TorznabResp where
  location : Option String := none
  content : List Nat := []
deriving DecidableEq

/-- The external-call outcomes consumed by `preprocess`. -/
structure PreprocessEnv where
  /-- `ruobj.get_torrent_data(result.url)` (line 1932). -/
  rutrackerData : PayloadVal := .pyNone
  /-- `request.request_response(url=result.url, allow_redirects=False)`
  (line 1936); `none` models a falsy (failed) response. -/
  torznabResponse : Option TorznabResp := none
  /-- `request.request_content(...)` on the result URL (lines 1982, 1993,
  1999); `none` models `None`. -/
  requestContentResult : Option (List Nat) := none
deriving DecidableEq

/-- `request_content`'s return value as a payload. -/
def payloadOfContent : Option (List Nat) → PayloadVal
  | none => .pyNone
  | some bs => .bytesVal bs

/-- The `"d10:magnet-uri%d:%se" % (len(link), link)` payload
(lines 1949, 1986). -/
def magnetPayload (link : String) : String :=
  "d10:magnet-uri" ++ toString link.data.length ++ ":" ++ link ++ "e"

/-- The tail of the torrent branch of `preprocess` (lines 1963–1982), reached
when the result is neither a rutracker result nor a successfully redirected
Torznab result. -/
def preprocess_torrent_rest (env : PreprocessEnv) (cfg : Config)
    (result : Result) : Option (PayloadVal × Result) :=
  if cfg.TORRENT_DOWNLOADER == 1 || cfg.TORRENT_DOWNLOADER == 3 then
    some (.pyTrue, result)
  else if pyStartsWith (pyLower result.url) "magnet:" then
    some (.pyTrue, result)
  else some (payloadOfContent env.requestContentResult, result)

/-- `preprocess` (lines 1921–1999).  Every branch of the loop body returns,
so only the head of the result list is ever examined; an empty list falls off
the loop and returns `None`. -/
def preprocess (env : PreprocessEnv) (cfg : Config) :
    List Result → Option (PayloadVal × Result)
  | [] => none
  | result :: _ =>
    if result.kind == "soulseek" then some (.pyTrue, result)
    else if result.kind == "torrent" then
      if result.provider == "rutracker.org" then
        some (env.rutrackerData, result)
      else if pyStartsWith result.provider "Torznab" ||
          pyIn "torznab" (pyLower result.provider) then
        match env.torznabResponse with
        | some r =>
          match r.location with
          | some link =>
            if link != "" && link != result.url then
              if pyStartsWith link "magnet:" then
                some (.strVal (magnetPayload link),
                  { title := result.title, size := result.size, url := link,
                    provider := result.provider, kind := "magnet",
                    matchesFlag := result.matchesFlag })
              else
                some (.pyTrue,
                  { title := result.title, size := result.size, url := link,
                    provider := result.provider, kind := result.kind,
                    matchesFlag := result.matchesFlag })
            else some (.bytesVal r.content, result)
          | none => some (.bytesVal r.content, result)
        | none => preprocess_torrent_rest env cfg result
      else preprocess_torrent_rest env cfg result
    else if result.kind == "magnet" then
      some (.strVal (magnetPayload result.url), result)
    else if result.kind == "bandcamp" then some (.pyTrue, result)
    else some (payloadOfContent env.requestContentResult, result)

/-- The dispatch gate of `do_sorted_search` (lines 421–424):
`send_to_downloader` runs only when `preprocess` produced a truthy payload
(`Result` objects are non-empty tuples, hence always truthy). -/
def dispatch_gate (pp : Option (PayloadVal × Result)) :
    Option (PayloadVal × Result) :=
  match pp with
  | some (d, r) => if payloadTruthy d then some (d, r) else none
  | none => none

/-! ## Claim C10: preprocess returns in its first iteration -/

/-- C10: for every non-empty result list, `preprocess` returns during its
first loop iteration — its value depends only on the head, every branch
produces a value, and when that first payload is falsy the dispatch gate
blocks `send_to_downloader` (so no snatch record) without trying any
lower-ranked candidate. -/
theorem claim_C10 :
    (∀ (env : PreprocessEnv) (cfg : Config) (r : Result) (rest : List Result),
        preprocess env cfg (r :: rest) = preprocess env cfg [r]) ∧
    (∀ (env : PreprocessEnv) (cfg : Config) (r : Result) (rest : List Result),
        (preprocess env cfg (r :: rest)).isSome = true) ∧
    (∀ (env : PreprocessEnv) (cfg : Config) (rs : List Result)
        (p : PayloadVal) (res : Result),
        preprocess env cfg rs = some (p, res) → payloadTruthy p = false →
          dispatch_gate (preprocess env cfg rs) = none) := by
  refine ⟨fun env cfg r rest => rfl, ?_, ?_⟩
  · intro env cfg r rest
    unfold preprocess preprocess_torrent_rest
    repeat' split
    all_goals first | rfl | simp_all
  · intro env cfg rs p res hpp hfalse
    rw [hpp]
    simp [dispatch_gate, hfalse]

/-- Witness for C10 at a concrete input: an nzb result whose payload fetch
returns `None` — preprocess still returns in the first iteration, the
payload is falsy, and the dispatch gate yields no dispatch. -/
theorem claim_C10_witness :
    preprocess {} {} [exR4, exA] = preprocess {} {} [exR4] ∧
    (preprocess {} {} [exR4, exA]).isSome = true ∧
    dispatch_gate (preprocess {} {} [exR4, exA]) = none :=
  ⟨claim_C10.1 {} {} exR4 [exA],
   claim_C10.2.1 {} {} exR4 [exA],
   claim_C10.2.2 {} {} [exR4, exA] PayloadVal.pyNone exR4 (by decide)
     (by decide)⟩

/-! ## Claim C8: the Soulseek search poll loop (soulseek.py, lines 62–64) -/

/-- `time.sleep(2)`: the fixed poll interval in seconds (line 63). -/
def SOULSEEK_POLL_INTERVAL : Nat := 2

/-- The poll loop `while not client.searches.state(id).get('isComplete'):
time.sleep(2)` observed through the stream `s` of `isComplete` values:
`poll_wait s fuel n` returns the index of the first `true` at or after `n`,
scanning at most `fuel` polls. -/
def poll_wait (s : Nat → Bool) : Nat → Nat → Option Nat
  | 0, _ => none
  | fuel + 1, n => if s n then some n else poll_wait s fuel (n + 1)

/-- Number of poll iterations (= sleeps) `execute_search` performs before
returning, within a poll budget `fuel`; `none` when the loop is still
running after `fuel` polls. -/
def executeSearchPollCount (s : Nat → Bool) (fuel : Nat) : Option Nat :=
  poll_wait s fuel 0

theorem poll_wait_allFalse (fuel n : Nat) :
    poll_wait (fun _ => false) fuel n = none := by
  induction fuel generalizing n with
  | zero => rfl
  | succ fuel ih => simp [poll_wait, ih]

/-- C8 counterexample: there is NO bound `B` such that the poll loop finishes
within `B` iterations for every completion stream — with a remote job that
never reports completion the loop never terminates, refuting "the polling
terminates after a bounded number of iterations even if the remote job never
reports completion". -/
theorem claim_C8_counterexample :
    ¬ ∃ B : Nat, ∀ s : Nat → Bool,
        (executeSearchPollCount s B).isSome = true := by
  rintro ⟨B, hB⟩
  have h := hB (fun _ => false)
  rw [executeSearchPollCount, poll_wait_allFalse] at h
  simp at h

theorem poll_wait_first (s : Nat → Bool) :
    ∀ (fuel n k : Nat), k < fuel → (∀ m, m < k → s (n + m) = false) →
      s (n + k) = true → poll_wait s fuel n = some (n + k) := by
  intro fuel
  induction fuel with
  | zero => intro n k hk; omega
  | succ fuel ih =>
    intro n k hk hmin htrue
    by_cases hn : s n
    · have hk0 : k = 0 := by
        by_contra hne
        have := hmin 0 (by omega)
        simp at this
        rw [this] at hn
        exact Bool.false_ne_true hn
      subst hk0
      simp [poll_wait, hn]
    · have hk0 : k ≠ 0 := by
        intro hEq
        rw [hEq] at htrue
        simp at htrue
        rw [htrue] at hn
        exact hn rfl
      have h1 : poll_wait s fuel (n + 1) = some ((n + 1) + (k - 1)) := by
        refine ih (n + 1) (k - 1) (by omega) ?_ ?_
        · intro m hm
          have := hmin (m + 1) (by omega)
          simpa [Nat.add_assoc, Nat.add_comm 1 m] using this
        · have : n + 1 + (k - 1) = n + k := by omega
          rw [this]
          exact htrue
      have h2 : (n + 1) + (k - 1) = n + k := by omega
      simp only [poll_wait, hn, if_neg, Bool.false_eq_true, not_false_eq_true,
        if_false]
      rw [h1, h2]

theorem poll_wait_none (s : Nat → Bool) :
    ∀ (fuel n : Nat), (∀ m, m < fuel → s (n + m) = false) →
      poll_wait s fuel n = none := by
  intro fuel
  induction fuel with
  | zero => intro n _; rfl
  | succ fuel ih =>
    intro n hall
    have h0 : s n = false := by simpa using hall 0 (by omega)
    simp only [poll_wait, h0, Bool.false_eq_true, if_false]
    refine ih (n + 1) ?_
    intro m hm
    have := hall (m + 1) (by omega)
    simpa [Nat.add_assoc, Nat.add_comm 1 m] using this

/-- C8 (amended): the wait in `execute_search` is a poll loop with the fixed
2-second sleep interval that terminates when — and only when — some poll
reports the remote job complete: it exits after exactly the number of polls
preceding the first completed poll, and runs forever (no budget suffices)
while the job never reports completion. -/
theorem claim_C8 :
    (∀ (s : Nat → Bool) (k fuel : Nat), k < fuel →
        (∀ m, m < k → s m = false) → s k = true →
        executeSearchPollCount s fuel = some k) ∧
    (∀ (s : Nat → Bool) (fuel : Nat), (∀ m, m < fuel → s m = false) →
        executeSearchPollCount s fuel = none) ∧
    SOULSEEK_POLL_INTERVAL = 2 := by
  refine ⟨?_, ?_, rfl⟩
  · intro s k fuel hk hmin htrue
    have := poll_wait_first s fuel 0 k hk (by simpa using hmin)
      (by simpa using htrue)
    simpa [executeSearchPollCount] using this
  · intro s fuel hall
    exact poll_wait_none s fuel 0 (by simpa using hall)

/-- Witness for C8 (amended): a stream completing at the fourth poll exits
with exactly 3 earlier polls; an all-false stream exhausts any budget. -/
theorem claim_C8_witness :
    executeSearchPollCount (fun i => i == 3) 10 = some 3 ∧
    executeSearchPollCount (fun _ => false) 10 = none :=
  ⟨claim_C8.1 (fun i => i == 3) 3 10 (by decide)
      (fun m hm => by
        have : m ≠ 3 := by omega
        simp [this])
      (by decide),
   claim_C8.2.1 (fun _ => false) 10 (fun m _ => rfl)⟩

/-! ## Python exceptions -/

/-- The Python exception classes distinguished by the embedding. -/
inductive PyExn
  | valueError
  | indexError
  | keyError
  | typeError
  | decodeError
  | binasciiError
  | other (msg : String)
deriving DecidableEq

/-- The bytes of an ASCII string. -/
def strBytes (s : String) : List Nat := s.data.map Char.toNat

/-! ## Bencoding (`bencode` library: `encode`/`decode`) -/

/-- Bencoded values: integers, byte strings, lists and dictionaries (with
byte-string keys in decoding order). -/
inductive Bencode
  | bint (i : Int)
  | bstr (s : List Nat)
  | blist (xs : List Bencode)
  | bdict (kvs : List (List Nat × Bencode))

/-- Decimal digit bytes of a natural number (fuel-indexed worker). -/
def natDecGo : Nat → Nat → List Nat
  | _, 0 => [48]
  | 0, n => [48 + n % 10]
  | fuel + 1, n =>
    if n < 10 then [48 + n]
    else natDecGo fuel (n / 10) ++ [48 + n % 10]

/-- Decimal digit bytes of a natural number. -/
def natDecBytes (n : Nat) : List Nat := natDecGo n n

/-- Decimal digit bytes of an integer (with a leading `-` if negative). -/
def intDecBytes (i : Int) : List Nat :=
  if i < 0 then 45 :: natDecBytes i.natAbs else natDecBytes i.toNat

/-- Lexicographic comparison of byte strings, as Python compares `bytes`
(used by the encoder's key sort). -/
def byteLexLe : List Nat → List Nat → Bool
  | [], _ => true
  | _ :: _, [] => false
  | a :: as', b :: bs' =>
    if a < b then true else if b < a then false else byteLexLe as' bs'

/-- Fuel-indexed bencode encoder (the fuel only bounds the recursion depth and
is always sufficient at `sizeOf v`).  Dictionaries are emitted with their
items sorted by key, as the Python encoder does. -/
def bencodeF : Nat → Bencode → List Nat
  | 0, _ => []
  | fuel + 1, .bint i => 105 :: intDecBytes i ++ [101]
  | fuel + 1, .bstr s => natDecBytes s.length ++ 58 :: s
  | fuel + 1, .blist xs =>
    108 :: (xs.map (bencodeF fuel)).flatten ++ [101]
  | fuel + 1, .bdict kvs =>
    100 :: ((pySorted (fun kv kv' => byteLexLe kv.1 kv'.1) kvs).map
      (fun kv => bencodeF fuel (.bstr kv.1) ++ bencodeF fuel kv.2)).flatten
      ++ [101]

mutual

/-- Structural size of a bencoded value (strictly larger than its nesting
depth, so it is a sufficient fuel for `bencodeF`). -/
def benSize : Bencode → Nat
  | .bint _ => 1
  | .bstr _ => 1
  | .blist xs => benSizeItems xs + 1
  | .bdict kvs => benSizePairs kvs + 1

/-- Size of a list of bencoded values. -/
def benSizeItems : List Bencode → Nat
  | [] => 0
  | x :: xs => benSize x + benSizeItems xs

/-- Size of a list of key/value pairs. -/
def benSizePairs : List (List Nat × Bencode) → Nat
  | [] => 0
  | kv :: kvs => benSize kv.2 + benSizePairs kvs

end

/-- `bencode.encode`. -/
def bencode (v : Bencode) : List Nat := bencodeF (benSize v) v

/-- Is a byte an ASCII decimal digit? -/
def isDigitByte (b : Nat) : Bool := 48 ≤ b && b ≤ 57

/-- Decimal value of a digit-byte list. -/
def digitsVal (l : List Nat) : Nat := l.foldl (fun a b => a * 10 + (b - 48)) 0

/-- Parse `<digits>e` (after a leading `i`), with an optional `-` sign.  As
in the library's decoder, non-canonical forms — a zero after the minus sign
(`-0…`) or a leading zero on a longer number (`0…`) — are rejected. -/
def parseBenInt (l : List Nat) : Option (Int × List Nat) :=
  let (neg, l') : Bool × List Nat :=
    match l with
    | 45 :: rest => (true, rest)
    | _ => (false, l)
  let ds := l'.takeWhile isDigitByte
  let rest := l'.dropWhile isDigitByte
  if ds.isEmpty then none
  else if neg && ds.headD 0 == 48 then none
  else if !neg && ds.headD 0 == 48 && ds.length != 1 then none
  else match rest with
    | 101 :: rest' =>
      some (if neg then -(digitsVal ds : Int) else (digitsVal ds : Int), rest')
    | _ => none

/-- Parse `<digits>:<bytes>`.  As in the library's decoder, a length with a
leading zero (other than `0` itself) is rejected. -/
def parseBenStr (l : List Nat) : Option (List Nat × List Nat) :=
  let ds := l.takeWhile isDigitByte
  let rest := l.dropWhile isDigitByte
  if ds.isEmpty then none
  else if ds.headD 0 == 48 && ds.length != 1 then none
  else match rest with
    | 58 :: rest' =>
      let n := digitsVal ds
      if rest'.length < n then none
      else some (rest'.take n, rest'.drop n)
    | _ => none

mutual

/-- Fuel-indexed recursive-descent bencode parser, one value. -/
def parseBen : Nat → List Nat → Option (Bencode × List Nat)
  | 0, _ => none
  | _ + 1, [] => none
  | fuel + 1, c :: rest =>
    if c == 105 then
      match parseBenInt rest with
      | some (i, rem) => some (.bint i, rem)
      | none => none
    else if c == 108 then parseBenItems fuel rest []
    else if c == 100 then parseBenPairs fuel rest []
    else
      match parseBenStr (c :: rest) with
      | some (s, rem) => some (.bstr s, rem)
      | none => none

/-- Parse list items up to the closing `e`. -/
def parseBenItems (fuel : Nat) (l : List Nat) (acc : List Bencode) :
    Option (Bencode × List Nat) :=
  match l with
  | [] => none
  | 101 :: rest => some (.blist acc.reverse, rest)
  | l' =>
    match fuel with
    | 0 => none
    | fuel' + 1 =>
      match parseBen fuel' l' with
      | some (v, rem) => parseBenItems fuel' rem (v :: acc)
      | none => none

/-- Parse dictionary key/value pairs up to the closing `e`. -/
def parseBenPairs (fuel : Nat) (l : List Nat)
    (acc : List (List Nat × Bencode)) : Option (Bencode × List Nat) :=
  match l with
  | [] => none
  | 101 :: rest => some (.bdict acc.reverse, rest)
  | l' =>
    match fuel with
    | 0 => none
    | fuel' + 1 =>
      match parseBenStr l' with
      | some (k, rem) =>
        match parseBen fuel' rem with
        | some (v, rem') => parseBenPairs fuel' rem' ((k, v) :: acc)
        | none => none
      | none => none

end

/-- `bencode.decode`: a complete parse of the input (trailing data is a
decode error, as in the library). -/
def bdecode (data : List Nat) : Option Bencode :=
  match parseBen (data.length + 1) data with
  | some (v, []) => some v
  | _ => none

/-- Dictionary lookup: Python's `decode` builds a `dict` by inserting pairs
in order, so on (malformed) duplicate keys the last one wins. -/
def dictLookup (kvs : List (List Nat × Bencode)) (key : List Nat) :
    Option Bencode :=
  (kvs.reverse.find? (fun kv => kv.1 == key)).map (fun kv => kv.2)

/-- The byte-string key `b"info"`. -/
def infoKey : List Nat := strBytes "info"

/-! ## SHA-1 (`hashlib.sha1`) -/

/-- Truncate to 32 bits. -/
def w32 (n : Nat) : Nat := n % 4294967296

/-- 32-bit left rotation (the argument is expected to be < 2^32). -/
def rotl (b n : Nat) : Nat := w32 ((n <<< b) ||| (n >>> (32 - b)))

/-- Bitwise complement on 32 bits. -/
def not32 (n : Nat) : Nat := Nat.xor n 4294967295

/-- Big-endian 4-byte encoding of a 32-bit word. -/
def be32 (n : Nat) : List Nat :=
  [(n >>> 24) % 256, (n >>> 16) % 256, (n >>> 8) % 256, n % 256]

/-- Big-endian 8-byte encoding of a 64-bit value. -/
def be64 (n : Nat) : List Nat :=
  (List.range 8).map (fun i => (n >>> (8 * (7 - i))) % 256)

/-- 64-byte blocks of a padded message (fuel-indexed worker). -/
def chunks64 : List Nat → Nat → List (List Nat)
  | [], _ => []
  | l, 0 => [l]
  | l, fuel + 1 => l.take 64 :: chunks64 (l.drop 64) fuel

/-- Big-endian 32-bit words from bytes. -/
def toWords32 : List Nat → List Nat
  | a :: b :: c :: d :: rest =>
    (((a * 256 + b) * 256 + c) * 256 + d) :: toWords32 rest
  | _ => []

/-- Extend the 16 block words to 80 schedule words. -/
def extendGo : List Nat → Nat → List Nat
  | ws, 0 => ws
  | ws, n + 1 =>
    let len := ws.length
    let w := rotl 1 (Nat.xor (Nat.xor (ws.getD (len - 3) 0) (ws.getD (len - 8) 0))
      (Nat.xor (ws.getD (len - 14) 0) (ws.getD (len - 16) 0)))
    extendGo (ws ++ [w]) n

/-- SHA-1 round function. -/
def sha1f (i b c d : Nat) : Nat :=
  if i < 20 then (b &&& c) ||| ((not32 b) &&& d)
  else if i < 40 then Nat.xor (Nat.xor b c) d
  else if i < 60 then (b &&& c) ||| (b &&& d) ||| (c &&& d)
  else Nat.xor (Nat.xor b c) d

/-- SHA-1 round constants. -/
def sha1k (i : Nat) : Nat :=
  if i < 20 then 1518500249
  else if i < 40 then 1859775393
  else if i < 60 then 2400959708
  else 3395469782

/-- One SHA-1 round step on the state `(a, b, c, d, e)` with the indexed
schedule word `(i, w)`. -/
def sha1step (st : Nat × Nat × Nat × Nat × Nat) (iw : Nat × Nat) :
    Nat × Nat × Nat × Nat × Nat :=
  match st with
  | (a, b, c, d, e) =>
    (w32 (rotl 5 a + sha1f iw.1 b c d + e + sha1k iw.1 + iw.2),
     a, rotl 30 b, c, d)

/-- Process one 64-byte block. -/
def sha1block (h : Nat × Nat × Nat × Nat × Nat) (block : List Nat) :
    Nat × Nat × Nat × Nat × Nat :=
  match h with
  | (h0, h1, h2, h3, h4) =>
    match (extendGo (toWords32 block) 64).enum.foldl sha1step
        (h0, h1, h2, h3, h4) with
    | (a, b, c, d, e) =>
      (w32 (h0 + a), w32 (h1 + b), w32 (h2 + c), w32 (h3 + d), w32 (h4 + e))

/-- `hashlib.sha1(msg).digest()` as a 20-byte list. -/
def sha1 (msg : List Nat) : List Nat :=
  let padded := msg ++ 128 ::
    (List.replicate ((64 + 55 - msg.length % 64) % 64) 0 ++
      be64 (8 * msg.length))
  match (chunks64 padded (padded.length + 64)).foldl sha1block
      (1732584193, 4023233417, 2562383102, 271733878, 3285377520) with
  | (h0, h1, h2, h3, h4) => be32 h0 ++ be32 h1 ++ be32 h2 ++ be32 h3 ++ be32 h4

/-! ## Hex and base32 codecs (`base64.b16encode`, `base64.b32decode`) -/

/-- Lowercase hex digit. -/
def hexDigitLower (n : Nat) : Char :=
  if n < 10 then Char.ofNat (48 + n) else Char.ofNat (87 + n)

/-- `b16encode(bs).lower()`: lowercase hex of a byte string (bytes are
< 256, so the inner `% 16` is a no-op keeping digits in range). -/
def hexLower (bs : List Nat) : String :=
  ⟨(bs.map (fun b => [hexDigitLower (b / 16 % 16), hexDigitLower (b % 16)])).flatten⟩

/-- Value of a base32-alphabet character (`A`–`Z`, `2`–`7`); `b32decode` is
case-sensitive by default, so lowercase input is a `binascii.Error`. -/
def b32val (c : Char) : Option Nat :=
  if 'A' ≤ c && c ≤ 'Z' then some (c.toNat - 65)
  else if '2' ≤ c && c ≤ '7' then some (c.toNat - 50 + 26)
  else none

/-- Big-endian byte extraction of an accumulated value. -/
def bigEndianBytes (n : Nat) (x : Nat) : List Nat :=
  (List.range n).map (fun i => (x >>> (8 * (n - 1 - i))) % 256)

/-- `base64.b32decode` restricted to padding-free input (the call site's
captured group consists of `\w` characters, which excludes `=` padding): the
length must be a multiple of 8 and every character in the base32 alphabet,
otherwise a `binascii.Error` (`none`). -/
def b32decode (s : String) : Option (List Nat) :=
  if s.data.length % 8 != 0 then none
  else
    match s.data.mapM b32val with
    | none => none
    | some vs =>
      some (bigEndianBytes (s.data.length / 8 * 5)
        (vs.foldl (fun a v => a * 32 + v) 0))

/-! ## Torrent-hash derivation (`calculate_torrent_hash`, lines 149–166) -/

/-- First match of `re.findall(r"urn:btih:([\w]{32,40})", link)`: at each
position, the literal `urn:btih:` followed by a greedy run of 32–40 word
characters (capped at 40); the scan advances one character on failure. -/
def findBtih : List Char → Option String
  | [] => none
  | c :: t =>
    if ("urn:btih:".data.isPrefixOf (c :: t)) then
      let run := (((c :: t).drop 9).takeWhile isWordChar).take 40
      if 32 ≤ run.length then some ⟨run⟩ else findBtih t
    else findBtih t

/-- `calculate_torrent_hash` (lines 149–166).  `data` is the Python `data`
argument (default `None`); exceptions are explicit: the magnet branch raises
`IndexError` when no `btih` group matches (`[0]` of an empty `findall`) and
`binascii.Error` on invalid base32; the data branch raises a bencode decode
error on malformed data, `TypeError` when the decoded value is not a
dictionary (or `data` not bytes), and `KeyError` when `b"info"` is missing;
`ValueError` is raised exactly by the final `else`. -/
def calculate_torrent_hash (link : String) (data : PayloadVal) :
    Except PyExn String :=
  if pyStartsWith link "magnet:" then
    match findBtih link.data with
    | none => .error .indexError
    | some h =>
      if h.data.length == 32 then
        match b32decode h with
        | none => .error .binasciiError
        | some bs => .ok (pyUpper (hexLower bs))
      else .ok (pyUpper h)
  else if payloadTruthy data then
    match data with
    | .bytesVal bs =>
      match bdecode bs with
      | none => .error .decodeError
      | some (.bdict kvs) =>
        match dictLookup kvs infoKey with
        | none => .error .keyError
        | some info => .ok (pyUpper (hexLower (sha1 (bencode info))))
      | some _ => .error .typeError
    | _ => .error .typeError
  else .error .valueError

/-! ## Claim C1: torrent-hash derivation -/

theorem pyUpper_length (s : String) : (pyUpper s).data.length = s.data.length := by
  simp [pyUpper]

theorem hexLower_length (bs : List Nat) :
    (hexLower bs).data.length = 2 * bs.length := by
  induction bs with
  | nil => rfl
  | cons b t ih =>
    simp only [hexLower, List.map_cons, List.flatten_cons, String.length,
      List.length_append, List.length_cons, List.length_nil] at ih ⊢
    omega

theorem b32decode_length (s : String) (bs : List Nat)
    (h : b32decode s = some bs) : bs.length = s.data.length / 8 * 5 := by
  unfold b32decode at h
  by_cases h8 : (s.data.length % 8 != 0) = true
  · rw [if_pos h8] at h
    exact absurd h (by simp)
  · rw [if_neg h8] at h
    rcases hmv : s.data.mapM b32val with _ | vs
    · rw [hmv] at h
      exact absurd h (by simp)
    · rw [hmv] at h
      have := Option.some.inj h
      rw [← this]
      simp [bigEndianBytes]

/-- C1: (a) the hash derivation raises its distinguishable `ValueError`
exactly when the link is not a magnet link and no (truthy) raw data is given;
(b) for a magnet link whose first `btih` group is found, a 40-character hash
is returned uppercased and a 32-character base32 hash is decoded and
re-encoded as 40-character uppercase hex; (c) for a non-magnet link with raw
bencoded data whose outer dictionary has an `info` entry, the uppercase hex
SHA-1 digest of the re-encoded `info` entry is returned. -/
theorem claim_C1 :
    (∀ (link : String) (data : PayloadVal),
        calculate_torrent_hash link data = .error .valueError ↔
          pyStartsWith link "magnet:" = false ∧ payloadTruthy data = false) ∧
    (∀ (link : String) (data : PayloadVal) (h : String),
        pyStartsWith link "magnet:" = true → findBtih link.data = some h →
        (h.data.length = 40 →
          calculate_torrent_hash link data = .ok (pyUpper h)) ∧
        (h.data.length = 32 → ∀ bs, b32decode h = some bs →
          calculate_torrent_hash link data = .ok (pyUpper (hexLower bs)) ∧
          (pyUpper (hexLower bs)).data.length = 40)) ∧
    (∀ (link : String) (bs : List Nat) (kvs : List (List Nat × Bencode))
        (info : Bencode),
        pyStartsWith link "magnet:" = false → bs ≠ [] →
        bdecode bs = some (.bdict kvs) → dictLookup kvs infoKey = some info →
        calculate_torrent_hash link (.bytesVal bs) =
          .ok (pyUpper (hexLower (sha1 (bencode info))))) := by
  refine ⟨?_, ?_, ?_⟩
  · intro link data
    by_cases hm : pyStartsWith link "magnet:" = true
    · simp only [calculate_torrent_hash, hm, if_true]
      constructor
      · intro h
        exfalso
        revert h
        rcases hfind : findBtih link.data with _ | hh
        · simp
        · by_cases h32 : hh.data.length = 32
          · have h32' : hh.length = 32 := h32
            rcases hb : b32decode hh with _ | bs2 <;> simp [h32', hb]
          · have h32' : ¬ hh.length = 32 := h32
            simp [h32']
      · rintro ⟨h1, _⟩
        exact absurd h1 (by simp)
    · have hm' : pyStartsWith link "magnet:" = false := by simpa using hm
      simp only [calculate_torrent_hash, hm', Bool.false_eq_true, if_false]
      by_cases ht : payloadTruthy data = true
      · simp only [ht, if_true]
        constructor
        · intro h
          exfalso
          revert h
          rcases data with _ | _ | bs | s
          · simp
          · simp [payloadTruthy] at ht
          · rcases hdec : bdecode bs with _ | v
            · simp [hdec]
            · rcases v with i | st | xs | kvs
              · simp [hdec]
              · simp [hdec]
              · simp [hdec]
              · rcases hlook : dictLookup kvs infoKey with _ | info <;>
                  simp [hdec, hlook]
          · simp
        · rintro ⟨_, h2⟩
          simp [ht] at h2
      · have ht' : payloadTruthy data = false := by simpa using ht
        simp [ht', hm']
  · intro link data h hm hfind
    constructor
    · intro h40
      have hne : ¬ h.length = 32 := by
        have h' : h.length = 40 := h40
        omega
      simp [calculate_torrent_hash, hm, hfind, hne]
    · intro h32 bs hbs
      have heq : h.length = 32 := h32
      refine ⟨by simp [calculate_torrent_hash, hm, hfind, heq, hbs], ?_⟩
      have hlen : bs.length = 20 := by
        have := b32decode_length h bs hbs
        rw [h32] at this
        simpa using this
      rw [pyUpper_length, hexLower_length, hlen]
  · intro link bs kvs info hm hne hdec hlook
    have ht : payloadTruthy (.bytesVal bs) = true := by
      simp [payloadTruthy, hne]
    simp [calculate_torrent_hash, hm, ht, hdec, hlook]

/-- The 20 bytes of `b32decode("ABCDEFGHIJKLMNOPQRSTUVWXYZ234567")`. -/
def btih32bytes : List Nat :=
  [0, 68, 50, 20, 199, 66, 84, 182, 53, 207, 132, 101, 58, 86, 215, 198, 117,
   190, 119, 223]

/-- Fixture `info` dictionary for the C1 witness. -/
def infoValEx : Bencode := .bdict [(strBytes "name", .bstr (strBytes "foo"))]

/-- Witness for C1 at concrete inputs: no magnet and no data raises the
`ValueError`; a 40-character btih is uppercased; a 32-character base32 btih is
decoded and re-encoded as 40-character uppercase hex; raw bencoded data
yields the uppercase hex SHA-1 of the re-encoded `info` entry. -/
theorem claim_C1_witness :
    calculate_torrent_hash "" .pyNone = .error .valueError ∧
    calculate_torrent_hash
        "magnet:?xt=urn:btih:0123456789abcdef0123456789ABCDEF01234567"
        .pyNone =
      .ok (pyUpper "0123456789abcdef0123456789ABCDEF01234567") ∧
    (calculate_torrent_hash
        "magnet:?xt=urn:btih:ABCDEFGHIJKLMNOPQRSTUVWXYZ234567" .pyNone =
      .ok (pyUpper (hexLower btih32bytes)) ∧
      (pyUpper (hexLower btih32bytes)).data.length = 40) ∧
    calculate_torrent_hash "http://x/file.torrent"
        (.bytesVal (strBytes "d4:infod4:name3:fooee")) =
      .ok (pyUpper (hexLower (sha1 (bencode infoValEx)))) :=
  ⟨(claim_C1.1 "" .pyNone).mpr ⟨rfl, rfl⟩,
   (claim_C1.2.1
      "magnet:?xt=urn:btih:0123456789abcdef0123456789ABCDEF01234567" .pyNone
      "0123456789abcdef0123456789ABCDEF01234567" (by decide) (by decide)).1
      (by decide),
   (claim_C1.2.1 "magnet:?xt=urn:btih:ABCDEFGHIJKLMNOPQRSTUVWXYZ234567"
      .pyNone "ABCDEFGHIJKLMNOPQRSTUVWXYZ234567" (by decide) (by decide)).2
      (by decide) btih32bytes (by decide),
   claim_C1.2.2 "http://x/file.torrent" (strBytes "d4:infod4:name3:fooee")
      [(strBytes "info", infoValEx)] infoValEx (by decide) (by decide) rfl
      rfl⟩

/-! ## HTTP client layer (`request.request_response`, lines 57–152) -/

/-- An HTTP response as far as the embedded code inspects it. -/
structure HttpResponse where
  status : Nat
  content : List Nat := []
deriving DecidableEq

/-- Outcome of the underlying `session.<method>(url, ...)` call: a response,
or one of the `requests` exception classes caught by `request_response`. -/
inductive NetOutcome
  | success (resp : HttpResponse)
  | sslError
  | connError
  | timeoutError
  | requestExn
deriving DecidableEq

/-- Is the outcome a transport failure? -/
def netFails : NetOutcome → Bool
  | .success _ => false
  | _ => true

/-- `request_response` (lines 57–152): on a response, `raise_for_status`
raises `HTTPError` exactly for the client/server error range 400–599, unless
suppressed by `auto_raise` or the status whitelist; every raised `requests`
exception is caught and logged, and the function returns `None`. -/
def request_response (outcome : NetOutcome) (whitelist : List Nat)
    (auto_raise : Bool) : Option HttpResponse :=
  match outcome with
  | .success resp =>
    if !whitelist.isEmpty && auto_raise then
      if !(whitelist.contains resp.status) &&
          (400 ≤ resp.status && resp.status < 600) then none
      else some resp
    else if auto_raise then
      if 400 ≤ resp.status && resp.status < 600 then none else some resp
    else some resp
  | _ => none

/-! ## Usenet adapter feed parsing (`searchNZB`, lines 682–695) -/

/-- A feed entry as accessed by the Headphones-indexer section: each field
access / conversion can raise (missing attribute, bad index, bad int). -/
structure FeedItem where
  linkF : Except PyExn String := .error .keyError
  titleF : Except PyExn String := .error .keyError
  sizeF : Except PyExn Nat := .error .keyError

/-- The per-item parse loop (lines 686–695): each item is read inside
`try/except`, so a malformed item is logged and skipped and the remaining
items are still processed. -/
def parse_feed_entries (provider : String) (entries : List FeedItem) :
    List Result :=
  entries.filterMap (fun item =>
    match item.linkF, item.titleF, item.sizeF with
    | .ok url, .ok title, .ok size =>
      some { title := title, size := size, url := url, provider := provider,
             kind := "nzb", matchesFlag := true }
    | _, _, _ => none)

/-- The Headphones-indexer section of `searchNZB` (lines 649–695): a failed
feed request (`request_feed` returning `None`) contributes no results. -/
def searchNZB_indexer_section (provider : String)
    (feedData : Option (List FeedItem)) : List Result :=
  match feedData with
  | none => []
  | some entries => parse_feed_entries provider entries

/-! ## Peer-file-sharing adapter (`searchSoulseek`, lines 1852–1908) -/

/-- `searchSoulseek` (lines 1852–1908), with the term-building inputs
pre-computed (`cleanartist`, `term`) and the `soulseek.search` call outcome
supplied by the environment.  The whole body after term building runs inside
`try/except Exception`: any raise is logged and the function returns `None`
(not an empty list). -/
def searchSoulseek (cfg : Config) (searchOutcome : Except PyExn (List Result))
    (cleanartist term : String) (losslessOnly : Bool) (albumlength : Option ℚ)
    (new : Bool) (snatched : List String) (choose_specific_download : Bool) :
    Option (List Result) :=
  -- quality-mode overrides (lines 1880–1883)
  let losslessOnly := if cfg.PREFERRED_QUALITY == 3 then true else losslessOnly
  match searchOutcome with
  | .error _ => none
  | .ok resultlist =>
    let results := resultlist.filter (fun r =>
      verifyresult cfg r.title cleanartist term losslessOnly)
    let results :=
      if !results.isEmpty && !choose_specific_download then
        more_filtering cfg results albumlength new snatched
      else results
    some results

/-! ## Torrent adapter, Pirate Bay apibay path (`searchTorrent`,
lines 1758–1838) -/

/-- An apibay JSON row as accessed by the loop body: each subscript /
conversion (`item["name"]`, `int(item["size"])`, `int(item["seeders"])`,
`item["info_hash"]`) can raise, and nothing in the apibay path catches it. -/
structure ApibayItem where
  nameF : Except PyExn String := .error .keyError
  sizeF : Except PyExn Nat := .error .keyError
  seedersF : Except PyExn Int := .error .keyError
  infoHashF : Except PyExn String := .error .keyError

/-- The apibay result loop (lines 1793–1835): a `"No results returned"`
sentinel row breaks; any raise while reading a row propagates out of the
adapter.  `makeMagnet` stands for `pirate_bay_get_magnet` (URL quoting not
modelled). -/
def apibayLoop (makeMagnet : String → String → String)
    (maxsize minimumseeders : Int) :
    List ApibayItem → List Result → Except PyExn (List Result)
  | [], acc => .ok acc.reverse
  | item :: rest, acc =>
    match item.nameF with
    | .error e => .error e
    | .ok title =>
      if title == "No results returned" then .ok acc.reverse   -- break
      else
        match item.sizeF with
        | .error e => .error e
        | .ok size =>
          match item.seedersF with
          | .error e => .error e
          | .ok seeders =>
            match item.infoHashF with
            | .error e => .error e
            | .ok info_hash =>
              let url := makeMagnet info_hash title
              -- `url is not None` is always true for the constructed magnet
              let m := decide ((size : Int) < maxsize) &&
                decide (minimumseeders < seeders)
              apibayLoop makeMagnet maxsize minimumseeders rest
                ({ title := title, size := size, url := url,
                   provider := "The Pirate Bay", kind := "torrent",
                   matchesFlag := m } :: acc)

/-- The default (no-proxy) Pirate Bay section of `searchTorrent`
(lines 1788–1835): `rows = request.request_json(...)` is `None` on any
transport failure, and the unguarded `for item in rows:` at line 1793 then
raises `TypeError`, which propagates out of the adapter. -/
def searchTorrent_piratebay_apibay (makeMagnet : String → String → String)
    (rowsResp : Option (List ApibayItem)) (maxsize minimumseeders : Int) :
    Except PyExn (List Result) :=
  match rowsResp with
  | none => .error .typeError   -- iterating None (line 1793)
  | some rows => apibayLoop makeMagnet maxsize minimumseeders rows []

/-! ## Claim C3: adapters degrade to "no results" without raising -/

/-- C3 counterexample: when `soulseek.search` raises, `searchSoulseek`
returns `None` — not the empty list the claim promises for every adapter. -/
theorem claim_C3_counterexample :
    ¬ (searchSoulseek {} (.error (.other "connection refused")) "artist"
        "artist album" false none true [] false = some []) := by
  decide

/-- C3 (amended): the HTTP layer returns `None` on every transport failure,
the usenet adapters degrade to an empty result list on a failed feed request
and skip malformed feed items individually without raising, and the
peer-file-sharing adapter never raises but degrades to `None` (a falsy "no
results" value) rather than an empty list; the torrent adapter's default
Pirate Bay (apibay) path, however, does NOT honour the contract: a failed
JSON request makes it raise `TypeError` (iterating `None`), and a malformed
apibay row makes the row's error propagate out of the adapter. -/
theorem claim_C3 :
    (∀ (o : NetOutcome) (wl : List Nat) (ar : Bool), netFails o = true →
        request_response o wl ar = none) ∧
    (∀ provider, searchNZB_indexer_section provider none = []) ∧
    (∀ (provider : String) (bad : FeedItem) (entries : List FeedItem)
        (e : PyExn), bad.sizeF = .error e →
        parse_feed_entries provider (bad :: entries) =
          parse_feed_entries provider entries) ∧
    (∀ (cfg : Config) (e : PyExn) (cleanartist term : String)
        (losslessOnly : Bool) (albumlength : Option ℚ) (new : Bool)
        (snatched : List String) (choose : Bool),
        searchSoulseek cfg (.error e) cleanartist term losslessOnly
          albumlength new snatched choose = none) ∧
    (∀ (makeMagnet : String → String → String) (maxsize minseeders : Int),
        searchTorrent_piratebay_apibay makeMagnet none maxsize minseeders =
          .error .typeError) ∧
    (∀ (makeMagnet : String → String → String) (maxsize minseeders : Int)
        (item : ApibayItem) (rest : List ApibayItem) (title : String)
        (e : PyExn),
        item.nameF = .ok title → title ≠ "No results returned" →
        item.sizeF = .error e →
        searchTorrent_piratebay_apibay makeMagnet (some (item :: rest))
          maxsize minseeders = .error e) := by
  refine ⟨?_, fun provider => rfl, ?_, fun _ _ _ _ _ _ _ _ _ => rfl,
    fun _ _ _ => rfl, ?_⟩
  · intro o wl ar h
    rcases o with r | _ | _ | _ | _
    · simp [netFails] at h
    all_goals rfl
  · intro provider bad entries e hbad
    simp only [parse_feed_entries, List.filterMap_cons]
    rcases h1 : bad.linkF with e1 | v1 <;> rcases h2 : bad.titleF with e2 | v2 <;>
      rw [hbad]
  · intro makeMagnet maxsize minseeders item rest title e hname htitle hsize
    have htitle' : (title == "No results returned") = false := by
      simpa using htitle
    simp [searchTorrent_piratebay_apibay, apibayLoop, hname, htitle', hsize]

/-- A malformed feed item for the C3 witness (its size field raises). -/
def badFeedItem : FeedItem := { sizeF := .error .valueError }

/-- A well-formed feed item for the C3 witness. -/
def goodFeedItem : FeedItem :=
  { linkF := .ok "http://u", titleF := .ok "T", sizeF := .ok 5 }

/-- A malformed apibay row for the C3 witness: its name reads fine but
`int(item["size"])` raises. -/
def badApibayItem : ApibayItem :=
  { nameF := .ok "Some Album", sizeF := .error .valueError }

/-- Witness for C3 at concrete inputs. -/
theorem claim_C3_witness :
    request_response NetOutcome.connError [] true = none ∧
    searchNZB_indexer_section "headphones" none = [] ∧
    parse_feed_entries "headphones" [badFeedItem, goodFeedItem] =
      parse_feed_entries "headphones" [goodFeedItem] ∧
    searchSoulseek {} (.error (.other "boom")) "a" "a b" false none true []
      false = none ∧
    searchTorrent_piratebay_apibay (fun _ _ => "magnet:") none 300000000 0 =
      .error .typeError ∧
    searchTorrent_piratebay_apibay (fun _ _ => "magnet:")
        (some [badApibayItem]) 300000000 0 = .error .valueError :=
  ⟨claim_C3.1 NetOutcome.connError [] true rfl,
   claim_C3.2.1 "headphones",
   claim_C3.2.2.1 "headphones" badFeedItem [goodFeedItem] .valueError rfl,
   claim_C3.2.2.2.1 {} (.other "boom") "a" "a b" false none true [] false,
   claim_C3.2.2.2.2.1 (fun _ _ => "magnet:") 300000000 0,
   claim_C3.2.2.2.2.2 (fun _ _ => "magnet:") 300000000 0 badApibayItem []
     "Some Album" .valueError rfl (by decide) rfl⟩

/-! ## Completion pollers (`checkCompleted`) -/

/-- The completion status dictionary returned by every `checkCompleted`. -/
structure CompletionStatus where
  completed : Bool
  progress : ℚ
  status : String
  name : String
deriving DecidableEq

/-- Modelled from the spec: Python `float()` on the plain decimal strings
produced by the backends (optional sign, digits, optional fraction;
exponent/inf/nan forms are not produced by these APIs). `none` models the
`ValueError`/`TypeError` caught by the callers. -/
def parseFloatQ (s : String) : Option ℚ :=
  let t := (pyStrip s).data
  let signAndRest : ℚ × List Char :=
    match t with
    | '-' :: r => (-1, r)
    | '+' :: r => (1, r)
    | _ => (1, t)
  let ds := signAndRest.2.takeWhile Char.isDigit
  let r1 := signAndRest.2.dropWhile Char.isDigit
  let digitsVal : List Char → ℚ :=
    fun l => l.foldl (fun a c => a * 10 + ((c.toNat - 48 : Nat) : ℚ)) 0
  match r1 with
  | [] => if ds.isEmpty then none else some (signAndRest.1 * digitsVal ds)
  | '.' :: r2 =>
    let fs := r2.takeWhile Char.isDigit
    let r3 := r2.dropWhile Char.isDigit
    if !r3.isEmpty then none
    else if ds.isEmpty && fs.isEmpty then none
    else some (signAndRest.1 *
      (digitsVal ds + digitsVal fs / ((10 : ℚ) ^ fs.length)))
  | _ => none

/-- Truthiness of an optional string (`None` and `""` are falsy). -/
def optStrTruthy : Option String → Bool
  | none => false
  | some s => s != ""

namespace Sab

/-- A queue slot (`queue.slots[i]`), fields as read via `.get`. -/
structure QueueSlot where
  nzo_id : Option String := none
  filename : Option String := none
  percentage : Option String := none
  status : Option String := none
deriving DecidableEq

/-- A history slot (`history.slots[i]`). -/
structure HistSlot where
  nzo_id : Option String := none
  name : Option String := none
  status : Option String := none
deriving DecidableEq

/-- A parsed SABnzbd API response: whether `'error' in response`, and the
`slots` list under the `queue`/`history` key. -/
structure QueueResp where
  hasError : Bool := false
  slots : List QueueSlot := []
deriving DecidableEq

/-- History counterpart of `QueueResp`. -/
structure HistResp where
  hasError : Bool := false
  slots : List HistSlot := []
deriving DecidableEq

/-- Outcomes of the two `sab_api_call` invocations: an injected exception, a
falsy response (`False`, logged connection error) as `none`, or a response. -/
structure Env where
  queueCall : Except PyExn (Option QueueResp) := .ok none
  historyCall : Except PyExn (Option HistResp) := .ok none

/-- Progress of a queue slot (lines 133–137): `float(percentage)/100`, with
any `ValueError`/`TypeError` yielding `0.0`. -/
def slotProgress (slot : QueueSlot) : ℚ :=
  match parseFloatQ (slot.percentage.getD "0") with
  | some q => q / 100
  | none => 0

/-- The queue-derived status of a matching slot (lines 131–148): still in
the queue, hence not completed. -/
def queueStatus (slot : QueueSlot) : CompletionStatus :=
  { completed := false,
    progress := slotProgress slot,
    status := slot.status.getD "unknown",
    name := slot.filename.getD "unknown" }

/-- First queue slot with the wanted `nzo_id`. -/
def findQueueSlot (slots : List QueueSlot) (nzb_id : String) :
    Option QueueSlot :=
  slots.find? (fun slot => slot.nzo_id == some nzb_id)

/-- The history phase of `sab.checkCompleted` (lines 155–193). -/
def checkHistory (env : Env) (nzb_id : String) :
    Except PyExn (Option CompletionStatus) :=
  match env.historyCall with
  | .error _ => .ok none    -- outer except (lines 195–197)
  | .ok none => .ok none    -- no response: warn, fall through, "not found"
  | .ok (some resp) =>
    if resp.hasError then .ok none
    else
      match resp.slots.find? (fun slot => slot.nzo_id == some nzb_id) with
      | some slot =>
        let status := slot.status.getD "unknown"
        .ok (some { completed := status == "Completed",
                    progress := if status == "Completed" then 1 else 0,
                    status := status,
                    name := slot.name.getD "unknown" })
      | none => .ok none

/-- `sab.checkCompleted` (sab.py lines 102–197): guards on an empty id,
queries the queue first and only then the history, and maps every raised
exception to `None`. -/
def checkCompleted (env : Env) (nzb_id : String) :
    Except PyExn (Option CompletionStatus) :=
  if nzb_id == "" then .ok none
  else
    match env.queueCall with
    | .error _ => .ok none    -- outer except (lines 195–197)
    | .ok none => checkHistory env nzb_id    -- falsy response: warn, go on
    | .ok (some resp) =>
      if resp.hasError then .ok none
      else
        match findQueueSlot resp.slots nzb_id with
        | some slot => .ok (some (queueStatus slot))
        | none => checkHistory env nzb_id

end Sab

namespace Nzbget

/-- A `listgroups` queue item, fields as read via `.get`.  `nzbidStr` is
`str(item.get('NZBID'))` (so a missing field reads `"None"`); the two size
fields are `none` when their value has a non-numeric type (which makes the
progress computation raise and be caught). -/
structure QueueItem where
  nzbidStr : String := "None"
  nzbName : Option String := none
  fileSizeMB : Option Int := none
  remainingSizeMB : Option Int := none
  status : Option String := none
deriving DecidableEq

/-- A `history()` item. -/
structure HistItem where
  nzbidStr : String := "None"
  name : Option String := none
  status : Option String := none
deriving DecidableEq

/-- Outcomes of the two XML-RPC calls. -/
structure Env where
  host : String := "http://nzbget"
  listgroupsCall : Except PyExn (List QueueItem) := .ok []
  historyCall : Except PyExn (List HistItem) := .ok []

/-- Progress of a queue item (lines 82–89): `(total-remaining)/total` for a
positive total, `0` otherwise; any `TypeError`/`ValueError`/
`ZeroDivisionError` (modelled by a `none` field) also yields `0`. -/
def itemProgress (it : QueueItem) : ℚ :=
  match it.fileSizeMB, it.remainingSizeMB with
  | some t, some r =>
    if 0 < t then max 0 (((t - r : Int) : ℚ) / (t : ℚ)) else 0
  | _, _ => 0

/-- The queue-derived status of a matching item (lines 77–101). -/
def queueStatus (it : QueueItem) : CompletionStatus :=
  { completed := false,
    progress := itemProgress it,
    status := it.status.getD "unknown",
    name := it.nzbName.getD "unknown" }

/-- First queue item matching by id or name (line 77). -/
def findQueueItem (queue : List QueueItem) (nzb_id : String) :
    Option QueueItem :=
  queue.find? (fun it => it.nzbidStr == nzb_id || it.nzbName == some nzb_id)

/-- `nzbget.checkCompleted` (nzbget.py lines 30–150): guards on an empty id
and missing host, queries `listgroups` first and `history` second, and maps
every raised exception (XML-RPC faults, protocol errors, anything else) to
`None`. -/
def checkCompleted (env : Env) (nzb_id : String) :
    Except PyExn (Option CompletionStatus) :=
  if nzb_id == "" then .ok none
  else if env.host == "" then .ok none
  else
    match env.listgroupsCall with
    | .error _ => .ok none    -- caught (lines 67–72, 142–150)
    | .ok queue =>
      match findQueueItem queue nzb_id with
      | some it => .ok (some (queueStatus it))
      | none =>
        match env.historyCall with
        | .error _ => .ok none    -- caught (lines 109–114, 142–150)
        | .ok history =>
          match history.find? (fun it =>
              it.nzbidStr == nzb_id || it.name == some nzb_id) with
          | some it =>
            let status := it.status.getD "unknown"
            .ok (some { completed := status == "SUCCESS",
                        progress := if status == "SUCCESS" then 1 else 0,
                        status := status,
                        name := it.name.getD "unknown" })
          | none => .ok none

end Nzbget

namespace Slsk

/-- A transfer file entry; `stale` is the wall-clock comparison
`requested_at < cutoff_time` supplied by the environment (`parse_datetime`
itself never raises: it catches internally and falls back to 1900). -/
structure FileData where
  state : String := ""
  stale : Bool := false
deriving DecidableEq

/-- A transfer directory entry. -/
structure DirData where
  directory : String := ""
  files : List FileData := []
deriving DecidableEq

/-- Outcomes of the client calls made by `soulseek.checkCompleted`. -/
structure Env where
  clientInit : Except PyExn Bool := .ok true    -- truthiness of the client
  getDownloads : Except PyExn (Option (List DirData)) := .ok none

/-- Last backslash-separated component (`s.split('\\')[-1]`). -/
def lastComponent (s : String) : String :=
  (pySplit s "\\").getLastD ""

/-- File counts `(total, completed, errored)` of a directory
(lines 238–252). -/
def fileCounts (files : List FileData) : Nat × Nat × Nat :=
  files.foldl (fun acc f =>
    (acc.1 + 1,
     acc.2.1 + (if pyIn "Completed, Succeeded" f.state then 1 else 0),
     acc.2.2 + (if !(pyIn "Completed, Succeeded" f.state) &&
        (pyIn "Completed, Errored" f.state || f.stale) then 1 else 0)))
    (0, 0, 0)

/-- `soulseek.checkCompleted` (soulseek.py lines 201–284): the whole body is
wrapped in `try/except Exception`, returning `None` on any raise, on a falsy
client, on `None` download data and on an unmatched/empty folder. -/
def checkCompleted (env : Env) (username folder_name : String) :
    Except PyExn (Option CompletionStatus) :=
  match env.clientInit with
  | .error _ => .ok none    -- outer except (lines 282–284)
  | .ok false => .ok none   -- falsy client (lines 214–216)
  | .ok true =>
    match env.getDownloads with
    | .error _ => .ok none    -- outer except (lines 282–284)
    | .ok none => .ok none    -- downloads is None (lines 220–222)
    | .ok (some dirs) =>
      let counts :=
        match dirs.find? (fun d =>
            lastComponent d.directory == folder_name) with
        | some d => fileCounts d.files
        | none => (0, 0, 0)
      if counts.1 == 0 then .ok none    -- not found (lines 258–260)
      else
        let progress := (counts.2.1 : ℚ) / (counts.1 : ℚ)
        let completed := counts.2.1 == counts.1 && counts.2.2 == 0
        .ok (some { completed := completed,
                    progress := progress,
                    status := if 0 < counts.2.2 then "errored"
                      else if completed then "completed" else "downloading",
                    name := folder_name })

end Slsk

/-! ## Claim C9: completion pollers never raise -/

/-- C9: each backend completion poller never propagates an exception —
whatever the underlying call throws, the function returns, and in every such
failure case the returned value is the absent value `None`; SABnzbd and
NZBGet consult the in-progress queue before the historical ledger (a queue
match decides the answer regardless of the history call); and a parse/type
error while computing progress yields progress 0. -/
theorem claim_C9 :
    (∀ (env : Nzbget.Env) (id : String),
        ∃ v, Nzbget.checkCompleted env id = .ok v) ∧
    (∀ (env : Sab.Env) (id : String),
        ∃ v, Sab.checkCompleted env id = .ok v) ∧
    (∀ (env : Slsk.Env) (u f : String),
        ∃ v, Slsk.checkCompleted env u f = .ok v) ∧
    (∀ (env : Nzbget.Env) (id : String) (e : PyExn),
        env.listgroupsCall = .error e →
        Nzbget.checkCompleted env id = .ok none) ∧
    (∀ (env : Nzbget.Env) (id : String) (queue : List Nzbget.QueueItem)
        (e : PyExn),
        id ≠ "" → env.host ≠ "" → env.listgroupsCall = .ok queue →
        Nzbget.findQueueItem queue id = none → env.historyCall = .error e →
        Nzbget.checkCompleted env id = .ok none) ∧
    (∀ (env : Sab.Env) (id : String) (e : PyExn),
        env.queueCall = .error e → Sab.checkCompleted env id = .ok none) ∧
    (∀ (env : Sab.Env) (id : String) (e : PyExn),
        env.historyCall = .error e → Sab.checkHistory env id = .ok none) ∧
    (∀ (env : Sab.Env) (id : String) (resp : Sab.QueueResp),
        env.queueCall = .ok (some resp) → resp.hasError = true →
        Sab.checkCompleted env id = .ok none) ∧
    (∀ (env : Slsk.Env) (u f : String) (e : PyExn),
        env.clientInit = .error e →
        Slsk.checkCompleted env u f = .ok none) ∧
    (∀ (env : Slsk.Env) (u f : String) (e : PyExn),
        env.getDownloads = .error e →
        Slsk.checkCompleted env u f = .ok none) ∧
    (∀ (env : Nzbget.Env) (id : String) (queue : List Nzbget.QueueItem)
        (it : Nzbget.QueueItem),
        id ≠ "" → env.host ≠ "" → env.listgroupsCall = .ok queue →
        Nzbget.findQueueItem queue id = some it →
        Nzbget.checkCompleted env id = .ok (some (Nzbget.queueStatus it))) ∧
    (∀ (env : Sab.Env) (id : String) (resp : Sab.QueueResp)
        (slot : Sab.QueueSlot),
        id ≠ "" → env.queueCall = .ok (some resp) → resp.hasError = false →
        Sab.findQueueSlot resp.slots id = some slot →
        Sab.checkCompleted env id = .ok (some (Sab.queueStatus slot))) ∧
    (∀ it : Nzbget.QueueItem, it.fileSizeMB = none →
        Nzbget.itemProgress it = 0) ∧
    (∀ slot : Sab.QueueSlot,
        parseFloatQ (slot.percentage.getD "0") = none →
        Sab.slotProgress slot = 0) := by
  refine ⟨?_, ?_, ?_, ?_, ?_, ?_, ?_, ?_, ?_, ?_, ?_, ?_, ?_, ?_⟩
  · intro env id
    unfold Nzbget.checkCompleted
    repeat' split
    all_goals exact ⟨_, rfl⟩
  · intro env id
    unfold Sab.checkCompleted Sab.checkHistory
    repeat' split
    all_goals exact ⟨_, rfl⟩
  · intro env u f
    rcases hci : env.clientInit with e | b
    · simp only [Slsk.checkCompleted, hci]
      exact ⟨_, rfl⟩
    · rcases b
      · simp only [Slsk.checkCompleted, hci]
        exact ⟨_, rfl⟩
      · rcases hgd : env.getDownloads with e | od
        · simp only [Slsk.checkCompleted, hci, hgd]
          exact ⟨_, rfl⟩
        · rcases od with _ | dirs
          · simp only [Slsk.checkCompleted, hci, hgd]
            exact ⟨_, rfl⟩
          · simp only [Slsk.checkCompleted, hci, hgd]
            split
            · exact ⟨_, rfl⟩
            · exact ⟨_, rfl⟩
  · intro env id e h
    by_cases h1 : (id == "") = true
    · simp [Nzbget.checkCompleted, h1]
    · by_cases h2 : (env.host == "") = true
      · simp [Nzbget.checkCompleted, h1, h2]
      · simp [Nzbget.checkCompleted, h1, h2, h]
  · intro env id queue e hid hhost hlg hfind hh
    have hid' : (id == "") = false := by simpa using hid
    have hhost' : (env.host == "") = false := by simpa using hhost
    simp [Nzbget.checkCompleted, hid', hhost', hlg, hfind, hh]
  · intro env id e h
    by_cases h1 : (id == "") = true
    · simp [Sab.checkCompleted, h1]
    · simp [Sab.checkCompleted, h1, h]
  · intro env id e h
    simp [Sab.checkHistory, h]
  · intro env id resp hq herr
    by_cases h1 : (id == "") = true
    · simp [Sab.checkCompleted, h1]
    · simp [Sab.checkCompleted, h1, hq, herr]
  · intro env u f e h
    simp [Slsk.checkCompleted, h]
  · intro env u f e h
    rcases hci : env.clientInit with e' | b
    · simp [Slsk.checkCompleted, hci]
    · rcases b
      · simp [Slsk.checkCompleted, hci]
      · simp [Slsk.checkCompleted, hci, h]
  · intro env id queue it hid hhost hlg hfind
    have hid' : (id == "") = false := by simpa using hid
    have hhost' : (env.host == "") = false := by simpa using hhost
    simp [Nzbget.checkCompleted, hid', hhost', hlg, hfind]
  · intro env id resp slot hid hq herr hfind
    have hid' : (id == "") = false := by simpa using hid
    simp [Sab.checkCompleted, hid', hq, herr, hfind]
  · intro it h
    simp [Nzbget.itemProgress, h]
  · intro slot h
    simp [Sab.slotProgress, h]

/-- C9 witness fixture: NZBGet queue item with id "7" and malformed sizes. -/
def exQItem : Nzbget.QueueItem := { nzbidStr := "7" }

/-- C9 witness fixture: NZBGet environment with the item both queued and in
the (successful) history. -/
def exNzbgetEnv : Nzbget.Env :=
  { listgroupsCall := .ok [exQItem],
    historyCall := .ok [{ nzbidStr := "7", status := some "SUCCESS" }] }

/-- C9 witness fixture: SABnzbd queue slot with an unparsable percentage. -/
def exQSlot : Sab.QueueSlot :=
  { nzo_id := some "id1", percentage := some "not a number" }

/-- C9 witness fixture: SABnzbd environment with the slot both queued and in
the (completed) history. -/
def exSabEnv : Sab.Env :=
  { queueCall := .ok (some { slots := [exQSlot] }),
    historyCall :=
      .ok (some { slots :=
        [{ nzo_id := some "id1", status := some "Completed" }] }) }

/-- C9 witness fixture: NZBGet environment with an empty queue and a
throwing history call. -/
def exNzbgetHistErrEnv : Nzbget.Env :=
  { listgroupsCall := .ok [], historyCall := .error (.other "hist down") }

/-- C9 witness fixture: SABnzbd environment whose queue response carries an
API error field. -/
def exSabErrRespEnv : Sab.Env :=
  { queueCall := .ok (some { hasError := true }) }

/-- Witness for C9 at concrete inputs: pollers whose calls raise (or whose
responses are malformed) return the absent value `None`; a queue match wins
over a history match; malformed progress fields give progress 0. -/
theorem claim_C9_witness :
    (∃ v, Nzbget.checkCompleted {} "7" = .ok v) ∧
    (∃ v, Sab.checkCompleted {} "id1" = .ok v) ∧
    (∃ v, Slsk.checkCompleted {} "u" "f" = .ok v) ∧
    Nzbget.checkCompleted
        { listgroupsCall := .error (.other "rpc fault") } "7" = .ok none ∧
    Nzbget.checkCompleted exNzbgetHistErrEnv "7" = .ok none ∧
    Sab.checkCompleted
        { queueCall := .error (.other "bad json") } "id1" = .ok none ∧
    Sab.checkHistory
        { historyCall := .error (.other "bad json") } "id1" = .ok none ∧
    Sab.checkCompleted exSabErrRespEnv "id1" = .ok none ∧
    Slsk.checkCompleted
        { clientInit := .error (.other "no client") } "u" "f" = .ok none ∧
    Slsk.checkCompleted
        { getDownloads := .error (.other "api down") } "u" "f" = .ok none ∧
    Nzbget.checkCompleted exNzbgetEnv "7" =
      .ok (some (Nzbget.queueStatus exQItem)) ∧
    Sab.checkCompleted exSabEnv "id1" =
      .ok (some (Sab.queueStatus exQSlot)) ∧
    Nzbget.itemProgress exQItem = 0 ∧
    Sab.slotProgress exQSlot = 0 := by
  obtain ⟨c1, c2, c3, c4, c5, c6, c7, c8, c9, c10, c11, c12, c13, c14⟩ :=
    claim_C9
  exact ⟨c1 {} "7",
    c2 {} "id1",
    c3 {} "u" "f",
    c4 { listgroupsCall := .error (.other "rpc fault") } "7"
      (.other "rpc fault") rfl,
    c5 exNzbgetHistErrEnv "7" [] (.other "hist down") (by decide) (by decide)
      rfl rfl rfl,
    c6 { queueCall := .error (.other "bad json") } "id1" (.other "bad json")
      rfl,
    c7 { historyCall := .error (.other "bad json") } "id1" (.other "bad json")
      rfl,
    c8 exSabErrRespEnv "id1" { hasError := true } rfl rfl,
    c9 { clientInit := .error (.other "no client") } "u" "f"
      (.other "no client") rfl,
    c10 { getDownloads := .error (.other "api down") } "u" "f"
      (.other "api down") rfl,
    c11 exNzbgetEnv "7" [exQItem] exQItem (by decide) (by decide) rfl
      (by decide),
    c12 exSabEnv "id1" { slots := [exQSlot] } exQSlot (by decide) rfl rfl
      (by decide),
    c13 exQItem rfl,
    c14 exQSlot (by decide)⟩

/-! ## Dispatch (`send_to_downloader`, lines 900–1196) -/

/-- The value of the Python `seed_ratio` variable after `get_seed_ratio`: a
parsed float, or — when `float()` raised `ValueError` — the original
string, which the function keeps and returns. -/
inductive SeedVal
  | fnum (q : ℚ)
  | sval (s : String)
deriving DecidableEq

/-- `get_seed_ratio` (lines 169–201).  For a `Torznab…` provider with fewer
than three `|`-separated parts, `provider.split('|')[2]` raises
`IndexError`; for one whose host matches neither the primary nor any extra
Torznab configuration, the Python code reads the never-assigned local
`seed_ratio` and raises `UnboundLocalError`, modelled as an error. -/
def get_seed_ratio (cfg : Config) (provider : String) :
    Except PyExn (Option SeedVal) :=
  let raw : Except PyExn (Option String) :=
    if provider == "rutracker.org" then .ok cfg.rutracker_ratio
    else if provider == "Orpheus.network" then .ok cfg.orpheus_ratio
    else if provider == "Redacted" then .ok cfg.redacted_ratio
    else if provider == "The Pirate Bay" then .ok cfg.piratebay_ratio
    else if pyStartsWith provider "Torznab" then
      let parts := pySplit provider "|"
      if parts.length < 3 then .error .indexError
      else
        let host := parts.getD 2 ""
        if host == cfg.TORZNAB_HOST then .ok cfg.torznab_ratio
        else
          match cfg.extraTorznabs.find? (fun t => t.1 == host) with
          | some t => .ok t.2
          | none => .error (.other "UnboundLocalError: seed_ratio")
    else .ok none
  match raw with
  | .error e => .error e
  | .ok none => .ok none
  | .ok (some s) =>
    match parseFloatQ s with
    | some q => .ok (some (.fnum q))
    | none => .ok (some (.sval s))   -- ValueError: warn, keep the string

/-- `seed_ratio is not None and seed_ratio != 0` (line 1183); in Python 3 a
string compares unequal to `0`. -/
def seedTruthyNonzero : Option SeedVal → Bool
  | none => false
  | some (.fnum q) => q != 0
  | some (.sval _) => true

/-- A row of the `snatched` table as inserted by `send_to_downloader`
(lines 1168–1196); the timestamp column is wall-clock and not modelled. -/
structure SnatchRec where
  albumId : String
  title : String
  size : Nat
  url : String
  status : String
  folderName : Option String
  kind : String
  torrentId : Option String
deriving DecidableEq

/-- Result of the per-kind dispatch section of `send_to_downloader`: an
early `return` (no rows written), a propagated exception, or fall-through to
the snatch insert with the reached `folder_name` / `seed_ratio` /
`torrentid` state. -/
inductive BranchOut
  | ret
  | raise (e : PyExn)
  | cont (folderName : Option String) (seedRatioVal : Option SeedVal)
      (torrentid : Option String)

/-- External-call outcomes and missing-helper functions used by
`send_to_downloader`.  The `String → String` fields stand for the
`headphones.helpers` functions (module absent from the sources) and the
`unidecode` transliteration; the concrete functions are irrelevant to the
claims and supplied by the environment. -/
structure DispatchEnv where
  sanitizeFoldername : String → String := fun s => s
  sabReplaceDotsFn : String → String := fun s => s
  sabReplaceSpacesFn : String → String := fun s => s
  replaceIllegalChars : String → String := fun s => s
  unidecode : String → String := fun s => s
  nzbgetSend : Bool := false                       -- nzbget.sendNZB
  sabSend : Bool := false                          -- sab.sendNZB
  sabReplaceSpaces : Bool := false                 -- sab.checkConfig()[0]
  sabReplaceDots : Bool := false                   -- sab.checkConfig()[1]
  blackholeWrite : Except PyExn Unit := .ok ()     -- NZB blackhole file write
  bandcampDownload : Except PyExn (Option String) := .ok none
  soulseekDownload : Except PyExn Unit := .ok ()
  openMagnet : Except PyExn Unit := .ok ()         -- OS magnet handler
  shuffledServices : List String := []             -- shuffled service list
  serviceContent : String → String → Option (List Nat) := fun _ _ => none
  torrentToFile : Bool := false                    -- torrent_to_file result
  readTorrentName : Option String := none          -- read_torrent_name result
  transmissionAdd : Option String := none
  transmissionGetName : Option String := none
  transmissionSetRatio : Except PyExn Unit := .ok ()
  delugeAdd : Except PyExn (Option String) := .ok none
  delugeSetLabel : Except PyExn Unit := .ok ()
  delugeSetRatio : Except PyExn Unit := .ok ()
  delugeGetFolder : Except PyExn (Option String) := .ok none
  utorrentAdd : Except PyExn Unit := .ok ()
  utorrentGetFolder : Option String := none
  utorrentLabel : Except PyExn Unit := .ok ()
  utorrentSetRatio : Except PyExn Unit := .ok ()
  qbitAdd : Except PyExn Unit := .ok ()
  qbitGetName : Option String := none
  qbitSetRatio : Except PyExn Unit := .ok ()

/-- `.replace('/', '_')` on a string (lines 969–970). -/
def slashToUnderscore (s : String) : String :=
  ⟨s.data.map (fun c => if c == '/' then '_' else c)⟩

/-- `get_year_from_release_date` (lines 583–589): the first four characters
(`release_date[:4]`). -/
def get_year_from_release_date (release_date : String) : String :=
  ⟨release_date.data.take 4⟩

/-- The magnet→torrent conversion loop of the `MAGNET_LINKS == 2` branch
(lines 1006–1023): try each (shuffle-ordered) service; falsy content moves
to the next service; a failed file write returns; success reads the torrent
name and breaks; exhaustion (`for`–`else`) returns. -/
def magnetServiceLoop (env : DispatchEnv) (torrent_hash : String) :
    List String → BranchOut
  | [] => .ret
  | service :: rest =>
    match env.serviceContent service torrent_hash with
    | some dat =>
      if dat.isEmpty then magnetServiceLoop env torrent_hash rest
      else if !env.torrentToFile then .ret
      else .cont env.readTorrentName none none
    | none => magnetServiceLoop env torrent_hash rest

/-- The per-kind dispatch section of `send_to_downloader` (lines 906–1164).
The Deluge branch (lines 1068–1100) is the one branch whose push runs inside
`try/except` with a handler that only logs: an exception there falls
through to the snatch insert with the state reached so far. -/
def dispatch_branch (cfg : Config) (env : DispatchEnv) (data : PayloadVal)
    (result : Result) (album : Album) : BranchOut :=
  if result.kind == "nzb" then
    let folder_name := env.sanitizeFoldername result.title
    if cfg.NZB_DOWNLOADER == 1 then
      if !env.nzbgetSend then .ret else .cont (some folder_name) none none
    else if cfg.NZB_DOWNLOADER == 0 then
      if !env.sabSend then .ret
      else
        let f1 := if env.sabReplaceDots then env.sabReplaceDotsFn folder_name
          else folder_name
        let f2 := if env.sabReplaceSpaces then env.sabReplaceSpacesFn f1
          else f1
        .cont (some f2) none none
    else
      match env.blackholeWrite with
      | .error _ => .ret    -- write failure logged, return (lines 949–951)
      | .ok _ => .cont (some folder_name) none none
  else if result.kind == "bandcamp" then
    match env.bandcampDownload with
    | .error e => .raise e   -- no handler around bandcamp.download
    | .ok f => .cont f none none
  else if result.kind == "soulseek" then
    match env.soulseekDownload with
    | .error _ => .ret       -- logged, return (lines 962–964)
    | .ok _ =>
      .cont (some ("\x7b" ++ result.user ++ "\x7d" ++ result.folder)) none
        none
  else
    let folder_name :=
      slashToUnderscore (env.unidecode album.ArtistName) ++ " - " ++
        slashToUnderscore (env.unidecode album.AlbumTitle) ++ " [" ++
        get_year_from_release_date album.ReleaseDate ++ "]"
    if cfg.TORRENT_DOWNLOADER == 0 then
      -- torrent blackhole (lines 973–1041)
      if pyStartsWith (pyLower result.url) "magnet:" then
        if cfg.MAGNET_LINKS == 1 then
          match env.openMagnet with
          | .error _ => .ret
          | .ok _ => .cont (some result.title) none none
        else if cfg.MAGNET_LINKS == 2 then
          match calculate_torrent_hash result.url .pyNone with
          | .error e => .raise e
          | .ok torrent_hash =>
            magnetServiceLoop env torrent_hash env.shuffledServices
        else if cfg.MAGNET_LINKS == 3 then .ret
        else .ret
      else
        if !env.torrentToFile then .ret
        else .cont env.readTorrentName none none
    else if cfg.TORRENT_DOWNLOADER == 1 then
      -- Transmission (lines 1043–1066)
      if !(optStrTruthy env.transmissionAdd) then .ret
      else if !(optStrTruthy env.transmissionGetName) then .ret
      else
        match get_seed_ratio cfg result.provider with
        | .error e => .raise e
        | .ok ratio =>
          match (match ratio with
                 | some _ => env.transmissionSetRatio
                 | none => .ok ()) with
          | .error e => .raise e
          | .ok _ => .cont env.transmissionGetName ratio env.transmissionAdd
    else if cfg.TORRENT_DOWNLOADER == 3 then
      -- Deluge (lines 1068–1100): caught exceptions fall through
      match env.delugeAdd with
      | .error _ => .cont (some folder_name) none none
      | .ok tid =>
        if !(optStrTruthy tid) then .ret
        else
          match (if cfg.DELUGE_LABEL then env.delugeSetLabel
                 else .ok ()) with
          | .error _ => .cont (some folder_name) none tid
          | .ok _ =>
            match get_seed_ratio cfg result.provider with
            | .error _ => .cont (some folder_name) none tid
            | .ok ratio =>
              match (match ratio with
                     | some _ => env.delugeSetRatio
                     | none => .ok ()) with
              | .error _ => .cont (some folder_name) ratio tid
              | .ok _ =>
                match env.delugeGetFolder with
                | .error _ => .cont (some folder_name) ratio tid
                | .ok f =>
                  if optStrTruthy f then .cont f ratio tid else .ret
    else if cfg.TORRENT_DOWNLOADER == 2 then
      -- uTorrent (lines 1102–1132)
      match env.utorrentAdd with
      | .error e => .raise e
      | .ok _ =>
        match calculate_torrent_hash result.url data with
        | .error e => .raise e
        | .ok torrentid =>
          if torrentid == "" then .ret
          else if !(optStrTruthy env.utorrentGetFolder) then .ret
          else
            match (if cfg.UTORRENT_LABEL then env.utorrentLabel
                   else .ok ()) with
            | .error e => .raise e
            | .ok _ =>
              match get_seed_ratio cfg result.provider with
              | .error e => .raise e
              | .ok ratio =>
                match (match ratio with
                       | some _ => env.utorrentSetRatio
                       | none => .ok ()) with
                | .error e => .raise e
                | .ok _ =>
                  .cont env.utorrentGetFolder ratio (some torrentid)
    else
      -- qBittorrent (lines 1133–1164)
      match env.qbitAdd with
      | .error e => .raise e
      | .ok _ =>
        match calculate_torrent_hash result.url data with
        | .error e => .raise e
        | .ok h =>
          let torrentid := pyLower h
          if torrentid == "" then .ret
          else if !(optStrTruthy env.qbitGetName) then .ret
          else
            match get_seed_ratio cfg result.provider with
            | .error e => .raise e
            | .ok ratio =>
              match (match ratio with
                     | some _ => env.qbitSetRatio
                     | none => .ok ()) with
              | .error e => .raise e
              | .ok _ => .cont env.qbitGetName ratio (some torrentid)

/-- `send_to_downloader` (lines 900–1196), up to and including the snatch
inserts (the album status update and the notification fan-out that follow do
not touch the snatched ledger).  Returns the inserted rows: none on an early
return, a `Snatched` row on fall-through, plus a `Seed_Snatched` row when a
truthy non-zero seed ratio and a truthy torrent id are present. -/
def send_to_downloader (cfg : Config) (env : DispatchEnv) (data : PayloadVal)
    (result : Result) (album : Album) : Except PyExn (List SnatchRec) :=
  match dispatch_branch cfg env data result album with
  | .ret => .ok []
  | .raise e => .error e
  | .cont folder_name seedRatioVal torrentid =>
    let rec1 : SnatchRec :=
      { albumId := album.AlbumID, title := result.title, size := result.size,
        url := result.url, status := "Snatched", folderName := folder_name,
        kind := result.kind, torrentId := torrentid }
    if seedTruthyNonzero seedRatioVal && optStrTruthy torrentid then
      .ok [rec1, { rec1 with status := "Seed_Snatched" }]
    else .ok [rec1]

/-! ## Claim C2: snatch records vs. backend success -/

/-- C2 failing configuration: Deluge is the configured torrent client. -/
def cfgC2 : Config := { TORRENT_DOWNLOADER := 3 }

/-- C2 failing environment: the Deluge push raises. -/
def envC2 : DispatchEnv :=
  { delugeAdd := .error (.other "deluge connection failed") }

/-- C2 failing result. -/
def resC2 : Result :=
  { title := "T", size := 100, url := "http://t", provider := "prov",
    kind := "torrent", matchesFlag := true }

/-- C2 album fixture. -/
def albC2 : Album :=
  { ArtistName := "Art", AlbumTitle := "Alb", ReleaseDate := "1998-04-20",
    AlbumID := "alb1" }

/-- The snatch row written despite the failed Deluge push. -/
def recC2 : SnatchRec :=
  { albumId := "alb1", title := "T", size := 100, url := "http://t",
    status := "Snatched", folderName := some "Art - Alb [1998]",
    kind := "torrent", torrentId := none }

/-- C2 evaluated at the failing input: with Deluge as the torrent client and
`deluge.addTorrent` raising, the exception is caught by a handler that only
logs, control falls through, and a SnatchRecord with status `"Snatched"` is
inserted even though the backend push failed — contradicting "a SnatchRecord
is written if and only if dispatch reported success". -/
theorem claim_C2 :
    envC2.delugeAdd = .error (.other "deluge connection failed") ∧
    send_to_downloader cfgC2 envC2 (.bytesVal [100]) resC2 albC2 =
      .ok [recC2] ∧
    recC2.status = "Snatched" :=
  ⟨rfl, rfl, rfl⟩

end Headphones
